import Mathlib

/-!
Verification of the IPC-2581 parser (`ipc_parse_tests_1.py`) against its
natural-language specification.

The Python source is shallowly embedded: XML elements become a tree type
`Element`, Python dicts become insertion-ordered association lists, floats
become rationals (`Rat`; only parse success and verbatim storage matter to
the properties below, never float rounding), and fallible statements are
threaded explicitly.  Mutating `load` methods become functions
`State → Element → State × Option String`: the first component is the
object's field state at the moment the call returns or raises, the second
is `some msg` when the Python code would raise an exception with that
message (tag mismatches, `KeyError`, `ValueError`), and `none` on normal
return.  Warnings printed to stdout are returned as `List String` where a
claim depends on them and noted in comments otherwise.
-/

namespace IPC

/-- An already-parsed XML element: tag, attribute dict, ordered children.
Mirrors the `xml.etree.ElementTree.Element` surface the parser uses. -/
inductive Element where
  | mk (tag : String) (attrib : List (String × String)) (children : List Element)
deriving Repr

def Element.tag : Element → String
  | .mk t _ _ => t

def Element.attrib : Element → List (String × String)
  | .mk _ a _ => a

def Element.children : Element → List Element
  | .mk _ _ c => c

/-- First-match lookup in an association list (a Python dict read). -/
def lookupA {α : Type} : List (String × α) → String → Option α
  | [], _ => none
  | (k, v) :: r, key => if k = key then some v else lookupA r key

/-- Replace the value at a key, keeping position (a Python dict write to an
existing key). Keys not present are left untouched. -/
def updateA {α : Type} : List (String × α) → String → α → List (String × α)
  | [], _, _ => []
  | (k, v) :: r, key, nv => if k = key then (k, nv) :: r else (k, v) :: updateA r key nv

/-- A Python dict assignment `d[k] = v`: overwrite if present, append if new. -/
def dictSet {α : Type} (l : List (String × α)) (k : String) (v : α) : List (String × α) :=
  match lookupA l k with
  | some _ => updateA l k v
  | none => l ++ [(k, v)]

/-- `element.find(tag)`: first child with the given tag. -/
def findChild (e : Element) (t : String) : Option Element :=
  e.children.find? (fun c => c.tag == t)

/-- `element.findall(tag)`: all children with the given tag, in order. -/
def findAllChildren (e : Element) (t : String) : List Element :=
  e.children.filter (fun c => c.tag == t)

/-- The process-wide IPC-2581 XML namespace constant (source: `prefix`'s
default `rpf` argument).  For a single tag name the source's `prefix`
function is plain concatenation of this namespace and the name. -/
def ns : String := "\x7bhttp://webstds.ipc.org/2581\x7d"

/-- Source `prefix(s)` applied to a single tag segment. -/
def pfx (s : String) : String := ns ++ s

/-! ## Python string / number coercion

`str.isnumeric` accepts every character with a Unicode numeric value:
the decimal digits (category Nd) plus letter-numbers and other numerics
(Nl/No — superscripts, vulgar fractions, Roman numerals, …).  `int(...)`
accepts only the decimal digits among them, so there are strings —
`"²"`, `"½"`, … — on which `isnumeric` is true and `int` still raises
`ValueError`.  The model keeps exactly that structure on a documented
fragment: ASCII digits stand for Nd (they parse), and a finite set of
Nl/No characters below stands for the numeric non-digits (they do not).
`float(...)` is modelled with its full acceptance language on ASCII
input: optional surrounding whitespace, an optional sign, underscore
digit grouping, an optional fraction and exponent, and the special words
inf/infinity/nan.  Failure of `int`/`float` is a Python `ValueError`. -/

/-- A representative finite fragment of the non-decimal characters
Python's `str.isnumeric` accepts (categories Nl/No): superscript one,
two, three, the vulgar fractions ¼ ½ ¾, and the Roman numeral Ⅰ.
`int()` raises `ValueError` on every one of them. -/
def pyCharIsNumericNonDigit (c : Char) : Bool :=
  ['¹', '²', '³', '¼', '½', '¾', 'Ⅰ'].contains c

/-- `s.isnumeric()`: non-empty and every character numeric — a decimal
digit or one of the modelled non-digit numerics. -/
def pyStrIsNumeric (s : String) : Bool :=
  s.length != 0 && s.toList.all (fun c => c.isDigit || pyCharIsNumericNonDigit c)

def digitsToNat (l : List Char) : Nat :=
  l.foldl (fun a c => a * 10 + (c.toNat - 48)) 0

/-- `int(s)`: succeeds exactly on non-empty decimal-digit strings (within
the strings `read_int` can pass it, i.e. the `isnumeric`-true ones, this
is the exact acceptance set: the non-digit numerics all raise). -/
def pyIntOfString (s : String) : Except String Int :=
  if s.length != 0 && s.toList.all Char.isDigit then
    .ok (digitsToNat s.toList)
  else
    .error ("ValueError: invalid literal for int() with base 10: \x27" ++ s ++ "\x27")

/-- The ASCII whitespace `float()` strips from both ends of its input. -/
def pyIsSpace (c : Char) : Bool :=
  c == ' ' || c == '\t' || c == '\n' || c == '\r' || c == '\x0b' || c == '\x0c'

/-- Continuation of a digit run that may use underscore grouping: after a
digit, either the run ends, another digit follows, or a single underscore
followed by a digit does. -/
def digitsUGo : List Char → Bool
  | [] => true
  | c :: rest =>
    if c.isDigit then digitsUGo rest
    else if c == '_' then
      match rest with
      | [] => false
      | d :: rest2 => d.isDigit && digitsUGo rest2
    else false

/-- A non-empty decimal-digit run with optional single underscores
strictly between digits (Python numeric-literal grouping). -/
def digitsU : List Char → Bool
  | [] => false
  | c :: rest => c.isDigit && digitsUGo rest

/-- Numeric value of a grouped digit run, underscores ignored. -/
def digitsUVal (l : List Char) : Nat :=
  digitsToNat (l.filter Char.isDigit)

/-- Number of digits in a grouped digit run. -/
def digitsUCount (l : List Char) : Nat :=
  (l.filter Char.isDigit).length

/-- The mantissa of a float literal: `digits`, `digits.`, `digits.digits`
or `.digits`, each digit run optionally underscore-grouped. -/
def parseMantissa (l : List Char) : Option Rat :=
  let ip := l.takeWhile (fun c => c != '.')
  let rest := l.dropWhile (fun c => c != '.')
  match rest with
  | [] => if digitsU ip then some ((digitsUVal ip : Int) : Rat) else none
  | _ :: fp =>
    if (digitsU ip || ip.isEmpty) && (digitsU fp || fp.isEmpty) &&
        !(ip.isEmpty && fp.isEmpty) then
      some (((digitsUVal ip : Int) : Rat) +
        ((digitsUVal fp : Int) : Rat) / ((10 : Rat) ^ digitsUCount fp))
    else
      none

/-- A finite float literal after sign stripping: mantissa with an optional
`e`/`E` exponent (optionally signed, underscore-grouped digits). -/
def pyFloatNumber (l : List Char) : Option Rat :=
  let mant := l.takeWhile (fun c => c != 'e' && c != 'E')
  let rest := l.dropWhile (fun c => c != 'e' && c != 'E')
  match rest with
  | [] => parseMantissa mant
  | _ :: ex =>
    match parseMantissa mant with
    | none => none
    | some m =>
      match ex with
      | '+' :: t => if digitsU t then some (m * (10 : Rat) ^ digitsUVal t) else none
      | '-' :: t => if digitsU t then some (m / (10 : Rat) ^ digitsUVal t) else none
      | t => if digitsU t then some (m * (10 : Rat) ^ digitsUVal t) else none

/-- The special words `float()` accepts, case-insensitively. -/
def pyFloatSpecial (l : List Char) : Bool :=
  let low := l.map Char.toLower
  low == ['i', 'n', 'f'] ||
  low == ['i', 'n', 'f', 'i', 'n', 'i', 't', 'y'] ||
  low == ['n', 'a', 'n']

/-- `float(s)` on str input: strip surrounding whitespace, take an optional
sign, then either a special word or a finite literal.  `none` means
`float` raises `ValueError`; `some none` means it succeeds with a
non-finite value (±inf/nan — accepted by Python but outside the `Rat`
fragment, so no finite value is fabricated for it); `some (some q)`
means it succeeds with the exact finite value `q`. -/
def pyFloatParse (s : String) : Option (Option Rat) :=
  let l := ((s.toList.dropWhile pyIsSpace).reverse.dropWhile pyIsSpace).reverse
  match l with
  | '-' :: core =>
    if pyFloatSpecial core then some none
    else (pyFloatNumber core).map (fun q => some (-q))
  | '+' :: core =>
    if pyFloatSpecial core then some none
    else (pyFloatNumber core).map (fun q => some q)
  | core =>
    if pyFloatSpecial core then some none
    else (pyFloatNumber core).map (fun q => some q)

/-- `s.lower()` (ASCII). -/
def pyLower (s : String) : String := String.mk (s.toList.map Char.toLower)

/-! ## Attribute Reader (source: `read_int`, `read_float`, `read_bool`)

Each returns the coerced value (or `none`) together with the warnings it
prints.  `read_int` additionally threads the exception `int(val)` could
raise (`Except`), because `int` is called unguarded after the `isnumeric`
test; the other two cannot raise at all (`read_float` catches the
`ValueError` itself, `read_bool` only compares strings). -/

def read_int (d : List (String × String)) (key : String) :
    Except String (Option Int × List String) :=
  match lookupA d key with
  | none => .ok (none, [])
  | some val =>
    if !(pyStrIsNumeric val) then
      .ok (none, ["Warning: Could not convert value " ++ val ++ " to int. Returning None."])
    else
      (pyIntOfString val).map (fun n => (some n, []))

def read_float (d : List (String × String)) (key : String) :
    Option Rat × List String :=
  match lookupA d key with
  | none => (none, [])
  | some val =>
    match pyFloatParse val with
    -- `float(val)` succeeded: its value, no warning.  For the non-finite
    -- specials (`v = none`) Python stores ±inf/nan; the Rat fragment
    -- carries no such value, and no theorem below relies on the value
    -- stored for them — only on the absence of a diagnostic.
    | some v => (v, [])
    -- the source's message is the literal text below (the f-prefix is
    -- missing in the Python, so `{val}` is not interpolated)
    | none => (none, ["Warning: Could not convert value \x7bval\x7d to float. Returning None."])

def read_bool (d : List (String × String)) (key : String) : Option Bool :=
  match lookupA d key with
  | none => none
  | some val => some (pyLower val == "true")

/-- The value component of `read_float`, for call sites whose warnings go
to stdout and play no role in the property being checked. -/
def read_floatv (d : List (String × String)) (key : String) : Option Rat :=
  (read_float d key).fst

/-- The value component of `read_int` for call sites whose surrounding
property does not involve the warning or exception channels.  `read_int`
CAN raise — a present `isnumeric`-true value `int()` rejects, such as
`"²"`, raises an uncaught `ValueError` in the source (see C2) — and a
raise at such a call site would abort the whole Python load; the claims
below never depend on those sites' behavior at raising inputs. -/
def read_intv (d : List (String × String)) (key : String) : Option Int :=
  match read_int d key with
  | .ok (v, _) => v
  | .error _ => none

/-! ## Exception helpers for direct dict accesses and `float(...)` calls -/

def keyError (k : String) : String := "KeyError: \x27" ++ k ++ "\x27"

def getAttr (e : Element) (k : String) : Except String String :=
  match lookupA e.attrib k with
  | some v => .ok v
  | none => .error (keyError k)

def pyFloatE (s : String) : Except String Rat :=
  match pyFloatParse s with
  | some (some r) => .ok r
  -- accepted but non-finite: Python continues with ±inf/nan; the Rat
  -- fragment has no such value, so the model stops with a marker rather
  -- than fabricating a finite one — every theorem about a load is
  -- conditional on the load completing in the model
  | some none => .error ("Nonfinite float value outside the Rat fragment: " ++ s)
  | none => .error ("ValueError: could not convert string to float: \x27" ++ s ++ "\x27")

/-- `float(e.attrib[k])`. -/
def getFloatAttr (e : Element) (k : String) : Except String Rat :=
  (getAttr e k).bind pyFloatE

/-- `(float(e.attrib[kx]), float(e.attrib[ky]))`: the tuple is evaluated in
full before any assignment, so failure leaves the target untouched. -/
def getPtAttrs (e : Element) (kx ky : String) : Except String (Rat × Rat) := do
  let x ← getFloatAttr e kx
  let y ← getFloatAttr e ky
  return (x, y)

/-- Sequencing of fallible mutation steps: a raised exception aborts the
rest of the statement list while keeping the state reached so far. -/
def loadLoop {σ : Type} (step : σ → Element → σ × Option String) :
    σ → List Element → σ × Option String
  | s, [] => (s, none)
  | s, c :: cs =>
    match step s c with
    | (s', none) => loadLoop step s' cs
    | (s', some err) => (s', some err)

/-! ## Transform (source: `IPC2581_Transform`)

Fields are `Option`-typed because `read_float`/`read_bool` can store
`None` into them during `load`; the constructor defaults are
`rotation=0.0, mirror=False, xOffset=0.0, yOffset=0.0`. -/

structure Xform where
  rotation : Option Rat
  mirror : Option Bool
  xOffset : Option Rat
  yOffset : Option Rat
deriving Repr, DecidableEq

/-- `IPC2581_Transform()` with all-default construction arguments. -/
def xformFresh : Xform := ⟨some 0, some false, some 0, some 0⟩

def Xform.load (self : Xform) (e : Element) : Xform × Option String :=
  if e.tag ≠ pfx "Xform" then
    (self, some ("Expected tag Xform, instead got " ++ e.tag))
  else
    let self := if (lookupA e.attrib "rotation").isSome then
      { self with rotation := read_floatv e.attrib "rotation" } else self
    let self := if (lookupA e.attrib "mirror").isSome then
      { self with mirror := read_bool e.attrib "mirror" } else self
    let self := if (lookupA e.attrib "xOffset").isSome then
      { self with xOffset := read_floatv e.attrib "xOffset" } else self
    let self := if (lookupA e.attrib "yOffset").isSome then
      { self with yOffset := read_floatv e.attrib "yOffset" } else self
    (self, none)

/-- The optional trailing `Xform` block shared by Circle/RectCenter/Oval:
`self.transform = IPC2581_Transform(); self.transform.load(xfrm_node)`.
Returns `none` when the child is absent, otherwise the loaded transform
together with the exception `load` would raise. -/
def loadOptXform (e : Element) : Option (Xform × Option String) :=
  (findChild e (pfx "Xform")).map (fun xn => Xform.load xformFresh xn)

/-! ## Geometry primitives (source: `IPC2581_Circle` .. `IPC2581_Polyline`) -/

structure Circle where
  diameter : Option Rat
  fill_desc_ref : String
  transform : Option Xform
deriving Repr, DecidableEq

def circleFresh : Circle := ⟨some 0, "", none⟩

def Circle.load (self : Circle) (e : Element) : Circle × Option String :=
  if e.tag ≠ pfx "Circle" then
    (self, some ("Expected tag to be Circle, instead got " ++ e.tag))
  else
    let self := { self with diameter := read_floatv e.attrib "diameter" }
    let fdrRes : Circle × Option String :=
      match findChild e (pfx "FillDescRef") with
      | none => (self, none)
      | some fdr =>
        match lookupA fdr.attrib "id" with
        | none => (self, some (keyError "id"))
        | some i => ({ self with fill_desc_ref := i }, none)
    match fdrRes with
    | (s, some err) => (s, some err)
    | (s, none) =>
      match loadOptXform e with
      | none => (s, none)
      | some (xf, err) => ({ s with transform := some xf }, err)

structure Line where
  start_pos : Rat × Rat
  end_pos : Rat × Rat
  lineEnd : String
  lineWidth : Rat
deriving Repr, DecidableEq

def lineFresh : Line := ⟨(0, 0), (0, 0), "ROUND", 0⟩

def Line.load (self : Line) (e : Element) : Line × Option String :=
  if e.tag ≠ pfx "Line" then
    (self, some ("Expected Line tag, instead got " ++ e.tag))
  else
    match getPtAttrs e "startX" "startY" with
    | .error err => (self, some err)
    | .ok sp =>
      let self := { self with start_pos := sp }
      match getPtAttrs e "endX" "endY" with
      | .error err => (self, some err)
      | .ok ep =>
        let self := { self with end_pos := ep }
        match findChild e (pfx "LineDesc") with
        | none => (self, none)
        | some ld =>
          match lookupA ld.attrib "lineEnd" with
          | none => (self, some (keyError "lineEnd"))
          | some le =>
            let self := { self with lineEnd := le }
            match getFloatAttr ld "lineWidth" with
            | .error err => (self, some err)
            | .ok lw => ({ self with lineWidth := lw }, none)

structure RectCenter where
  width : Option Rat
  height : Option Rat
  fill_desc_ref : String
  transform : Option Xform
deriving Repr, DecidableEq

def rectCenterFresh : RectCenter := ⟨some 0, some 0, "", none⟩

def RectCenter.load (self : RectCenter) (e : Element) : RectCenter × Option String :=
  if e.tag ≠ pfx "RectCenter" then
    (self, some ("Expected RectCenter tag, instead got " ++ e.tag))
  else
    let self := { self with width := read_floatv e.attrib "width",
                            height := read_floatv e.attrib "height" }
    let fdrRes : RectCenter × Option String :=
      match findChild e (pfx "FillDescRef") with
      | none => (self, none)
      | some fdr =>
        match lookupA fdr.attrib "id" with
        | none => (self, some (keyError "id"))
        | some i => ({ self with fill_desc_ref := i }, none)
    match fdrRes with
    | (s, some err) => (s, some err)
    | (s, none) =>
      match loadOptXform e with
      | none => (s, none)
      | some (xf, err) => ({ s with transform := some xf }, err)

structure Oval where
  width : Option Rat
  height : Option Rat
  fill_desc_ref : String
  transform : Option Xform
deriving Repr, DecidableEq

def ovalFresh : Oval := ⟨some 0, some 0, "", none⟩

def Oval.load (self : Oval) (e : Element) : Oval × Option String :=
  if e.tag ≠ pfx "Oval" then
    (self, some ("Expected Oval tag, instead got " ++ e.tag))
  else
    let self := { self with width := read_floatv e.attrib "width",
                            height := read_floatv e.attrib "height" }
    let fdrRes : Oval × Option String :=
      match findChild e (pfx "FillDescRef") with
      | none => (self, none)
      | some fdr =>
        match lookupA fdr.attrib "id" with
        | none => (self, some (keyError "id"))
        | some i => ({ self with fill_desc_ref := i }, none)
    match fdrRes with
    | (s, some err) => (s, some err)
    | (s, none) =>
      match loadOptXform e with
      | none => (s, none)
      | some (xf, err) => ({ s with transform := some xf }, err)

structure Arc where
  start_pos : Rat × Rat
  end_pos : Rat × Rat
  center_pos : Rat × Rat
  clockwise : Bool
  lineEnd : String
  lineWidth : Rat
deriving Repr, DecidableEq

def arcFresh : Arc := ⟨(0, 0), (0, 0), (0, 0), true, "ROUND", 0⟩

def Arc.load (self : Arc) (e : Element) : Arc × Option String :=
  if e.tag ≠ pfx "Arc" then
    (self, some ("Expected Arc tag, instead got " ++ e.tag))
  else
    match getPtAttrs e "startX" "startY" with
    | .error err => (self, some err)
    | .ok sp =>
      let self := { self with start_pos := sp }
      match getPtAttrs e "endX" "endY" with
      | .error err => (self, some err)
      | .ok ep =>
        let self := { self with end_pos := ep }
        match getPtAttrs e "centerX" "centerY" with
        | .error err => (self, some err)
        | .ok cp =>
          let self := { self with center_pos := cp }
          match getAttr e "clockwise" with
          | .error err => (self, some err)
          | .ok cw =>
            let self := { self with clockwise := cw == "true" }
            match findChild e (pfx "LineDesc") with
            | none => (self, none)
            | some ld =>
              match lookupA ld.attrib "lineEnd" with
              | none => (self, some (keyError "lineEnd"))
              | some le =>
                let self := { self with lineEnd := le }
                match getFloatAttr ld "lineWidth" with
                | .error err => (self, some err)
                | .ok lw => ({ self with lineWidth := lw }, none)

/-! ## Point chains (source: `IPC2581_PolyStepCurve`, `IPC2581_Polygon`,
`IPC2581_Contour`, `IPC2581_Polyline`)

Each chain walks the children of its element; `PolyBegin` appends a point,
`PolyStepSegment`/`PolyStepCurve` append a point and a connection
(`none` = straight segment, `some curve` = arc), any other child tag is
skipped silently by the source's `if/elif` chain without an `else`. -/

structure PolyStepCurve where
  center : Rat × Rat
  clockwise : Bool
deriving Repr, DecidableEq

structure Polygon where
  points : List (Rat × Rat)
  connections : List (Option PolyStepCurve)
deriving Repr, DecidableEq

def polygonFresh : Polygon := ⟨[], []⟩

def Polygon.step (self : Polygon) (p : Element) : Polygon × Option String :=
  if p.tag = pfx "PolyBegin" then
    match getPtAttrs p "x" "y" with
    | .error err => (self, some err)
    | .ok pt => ({ self with points := self.points ++ [pt] }, none)
  else if p.tag = pfx "PolyStepSegment" then
    match getPtAttrs p "x" "y" with
    | .error err => (self, some err)
    | .ok pt => ({ self with points := self.points ++ [pt],
                             connections := self.connections ++ [none] }, none)
  else if p.tag = pfx "PolyStepCurve" then
    match getPtAttrs p "x" "y" with
    | .error err => (self, some err)
    | .ok pt =>
      let self := { self with points := self.points ++ [pt] }
      match getPtAttrs p "centerX" "centerY" with
      | .error err => (self, some err)
      | .ok ctr =>
        match getAttr p "clockwise" with
        | .error err => (self, some err)
        | .ok cw =>
          ({ self with connections := self.connections ++ [some ⟨ctr, cw == "true"⟩] }, none)
  else
    (self, none)

def Polygon.load (self : Polygon) (e : Element) : Polygon × Option String :=
  if e.tag ≠ pfx "Polygon" then
    (self, some ("Expected Polygon tag, instead got " ++ e.tag))
  else
    -- the source's `if poly_node is not None` is vacuously true here
    loadLoop Polygon.step self e.children

structure Contour where
  points : List (Rat × Rat)
  connections : List (Option PolyStepCurve)
  cutout_points : List (Rat × Rat)
  cutout_connections : List (Option PolyStepCurve)
  fill_desc_ref : String
deriving Repr, DecidableEq

/-- `IPC2581_Contour()` with all-default construction arguments
(`points=None, connections=None, fill_desc_ref=''`). -/
def contourFresh : Contour := ⟨[], [], [], [], ""⟩

/-- One child of the Contour's single `Polygon` node; this loop also
recognizes `FillDescRef`. -/
def Contour.outerStep (self : Contour) (p : Element) : Contour × Option String :=
  if p.tag = pfx "PolyBegin" then
    match getPtAttrs p "x" "y" with
    | .error err => (self, some err)
    | .ok pt => ({ self with points := self.points ++ [pt] }, none)
  else if p.tag = pfx "PolyStepSegment" then
    match getPtAttrs p "x" "y" with
    | .error err => (self, some err)
    | .ok pt => ({ self with points := self.points ++ [pt],
                             connections := self.connections ++ [none] }, none)
  else if p.tag = pfx "PolyStepCurve" then
    match getPtAttrs p "x" "y" with
    | .error err => (self, some err)
    | .ok pt =>
      let self := { self with points := self.points ++ [pt] }
      match getPtAttrs p "centerX" "centerY" with
      | .error err => (self, some err)
      | .ok ctr =>
        match getAttr p "clockwise" with
        | .error err => (self, some err)
        | .ok cw =>
          ({ self with connections := self.connections ++ [some ⟨ctr, cw == "true"⟩] }, none)
  else if p.tag = pfx "FillDescRef" then
    match lookupA p.attrib "id" with
    | none => (self, some (keyError "id"))
    | some i => ({ self with fill_desc_ref := i }, none)
  else
    (self, none)

/-- One child of a `Cutout` node: all cutouts append into the same shared
`cutout_points`/`cutout_connections` lists. -/
def Contour.cutoutStep (self : Contour) (p : Element) : Contour × Option String :=
  if p.tag = pfx "PolyBegin" then
    match getPtAttrs p "x" "y" with
    | .error err => (self, some err)
    | .ok pt => ({ self with cutout_points := self.cutout_points ++ [pt] }, none)
  else if p.tag = pfx "PolyStepSegment" then
    match getPtAttrs p "x" "y" with
    | .error err => (self, some err)
    | .ok pt => ({ self with cutout_points := self.cutout_points ++ [pt],
                             cutout_connections := self.cutout_connections ++ [none] }, none)
  else if p.tag = pfx "PolyStepCurve" then
    match getPtAttrs p "x" "y" with
    | .error err => (self, some err)
    | .ok pt =>
      let self := { self with cutout_points := self.cutout_points ++ [pt] }
      match getPtAttrs p "centerX" "centerY" with
      | .error err => (self, some err)
      | .ok ctr =>
        match getAttr p "clockwise" with
        | .error err => (self, some err)
        | .ok cw =>
          ({ self with cutout_connections := self.cutout_connections ++ [some ⟨ctr, cw == "true"⟩] }, none)
  else
    (self, none)

def Contour.load (self : Contour) (e : Element) : Contour × Option String :=
  if e.tag ≠ pfx "Contour" then
    (self, some ("Expected Contour tag, instead got " ++ e.tag))
  else
    let outerRes : Contour × Option String :=
      match findChild e (pfx "Polygon") with
      | none => (self, none)
      | some poly => loadLoop Contour.outerStep self poly.children
    match outerRes with
    | (s, some err) => (s, some err)
    | (s, none) =>
      loadLoop (fun ct cutout => loadLoop Contour.cutoutStep ct cutout.children)
        s (findAllChildren e (pfx "Cutout"))

structure Polyline where
  points : List (Rat × Rat)
  connections : List (Option PolyStepCurve)
  lineEnd : String
  -- the source's construction default is the empty string ''; once loaded
  -- the field holds a `read_float` result, modelled as `Option Rat` with
  -- `none` for the "no numeric value" default
  lineWidth : Option Rat
deriving Repr, DecidableEq

def polylineFresh : Polyline := ⟨[], [], "", none⟩

def Polyline.step (self : Polyline) (p : Element) : Polyline × Option String :=
  if p.tag = pfx "PolyBegin" then
    match getPtAttrs p "x" "y" with
    | .error err => (self, some err)
    | .ok pt => ({ self with points := self.points ++ [pt] }, none)
  else if p.tag = pfx "PolyStepSegment" then
    match getPtAttrs p "x" "y" with
    | .error err => (self, some err)
    | .ok pt => ({ self with points := self.points ++ [pt],
                             connections := self.connections ++ [none] }, none)
  else if p.tag = pfx "PolyStepCurve" then
    match getPtAttrs p "x" "y" with
    | .error err => (self, some err)
    | .ok pt =>
      let self := { self with points := self.points ++ [pt] }
      match getPtAttrs p "centerX" "centerY" with
      | .error err => (self, some err)
      | .ok ctr =>
        match getAttr p "clockwise" with
        | .error err => (self, some err)
        | .ok cw =>
          ({ self with connections := self.connections ++ [some ⟨ctr, cw == "true"⟩] }, none)
  else if p.tag = pfx "LineDesc" then
    match lookupA p.attrib "lineEnd" with
    | none => (self, some (keyError "lineEnd"))
    | some le =>
      ({ self with lineEnd := le, lineWidth := read_floatv p.attrib "lineWidth" }, none)
  else
    (self, none)

def Polyline.load (self : Polyline) (e : Element) : Polyline × Option String :=
  if e.tag ≠ pfx "Polyline" then
    (self, some ("Expected Polyline tag, instead got " ++ e.tag))
  else
    loadLoop Polyline.step self e.children

/-- The closed union of geometry primitives. -/
inductive Shape where
  | circle : Circle → Shape
  | line : Line → Shape
  | rectCenter : RectCenter → Shape
  | oval : Oval → Shape
  | arc : Arc → Shape
  | polygon : Polygon → Shape
  | polyline : Polyline → Shape
  | contour : Contour → Shape
deriving Repr, DecidableEq

/-! ## UserSpecial (source: `IPC2581_UserSpecial`) -/

structure UserSpecial where
  shapes : List Shape
deriving Repr, DecidableEq

def userSpecialFresh : UserSpecial := ⟨[]⟩

/-- One child of a `UserSpecial` node: dispatch on the tag, load the shape
with the matched loader, append it on success.  The source's `if/elif`
chain recognizes Circle, Line, RectCenter, Oval, Arc, Contour and
Polyline (it has no `Polygon` branch) and raises on every other tag. -/
def UserSpecial.step (self : UserSpecial) (sn : Element) : UserSpecial × Option String :=
  if sn.tag = pfx "Circle" then
    match Circle.load circleFresh sn with
    | (sh, none) => ({ self with shapes := self.shapes ++ [Shape.circle sh] }, none)
    | (_, some err) => (self, some err)
  else if sn.tag = pfx "Line" then
    match Line.load lineFresh sn with
    | (sh, none) => ({ self with shapes := self.shapes ++ [Shape.line sh] }, none)
    | (_, some err) => (self, some err)
  else if sn.tag = pfx "RectCenter" then
    match RectCenter.load rectCenterFresh sn with
    | (sh, none) => ({ self with shapes := self.shapes ++ [Shape.rectCenter sh] }, none)
    | (_, some err) => (self, some err)
  else if sn.tag = pfx "Oval" then
    match Oval.load ovalFresh sn with
    | (sh, none) => ({ self with shapes := self.shapes ++ [Shape.oval sh] }, none)
    | (_, some err) => (self, some err)
  else if sn.tag = pfx "Arc" then
    match Arc.load arcFresh sn with
    | (sh, none) => ({ self with shapes := self.shapes ++ [Shape.arc sh] }, none)
    | (_, some err) => (self, some err)
  else if sn.tag = pfx "Contour" then
    match Contour.load contourFresh sn with
    | (sh, none) => ({ self with shapes := self.shapes ++ [Shape.contour sh] }, none)
    | (_, some err) => (self, some err)
  else if sn.tag = pfx "Polyline" then
    match Polyline.load polylineFresh sn with
    | (sh, none) => ({ self with shapes := self.shapes ++ [Shape.polyline sh] }, none)
    | (_, some err) => (self, some err)
  else
    (self, some ("Unknown geometry type with tag " ++ sn.tag))

def UserSpecial.load (self : UserSpecial) (e : Element) : UserSpecial × Option String :=
  if e.tag ≠ pfx "UserSpecial" then
    (self, some ("Expected UserSpecial tag, instead got " ++ e.tag))
  else
    -- `self.shapes = []` precedes the loop
    loadLoop UserSpecial.step { self with shapes := [] } e.children

/-! ## Pad (source: `IPC2581_Pad`) -/

structure Pad where
  padstackDefRef : String
  loc : Option Rat × Option Rat
  std_prim_ref : String
  pin : String
  pin_componentRef : String
deriving Repr, DecidableEq

def padFresh : Pad := ⟨"", (some 0, some 0), "", "", ""⟩

def Pad.loadPinRef (self : Pad) (e : Element) : Pad × Option String :=
  match findChild e (pfx "PinRef") with
  | none => (self, none)
  | some pr =>
    match lookupA pr.attrib "pin" with
    | none => (self, some (keyError "pin"))
    | some p =>
      let self := { self with pin := p }
      match lookupA pr.attrib "componentRef" with
      | none => (self, none)
      | some cr => ({ self with pin_componentRef := cr }, none)

def Pad.load (self : Pad) (e : Element) : Pad × Option String :=
  if e.tag ≠ pfx "Pad" then
    (self, some ("Expected Pad tag, instead got " ++ e.tag ++ "."))
  else
    match lookupA e.attrib "padstackDefRef" with
    | none => (self, some (keyError "padstackDefRef"))
    | some pr =>
      let self := { self with padstackDefRef := pr }
      let self := match findChild e (pfx "Location") with
        | none => self
        | some ln => { self with loc := (read_floatv ln.attrib "x", read_floatv ln.attrib "y") }
      let sprRes : Pad × Option String :=
        match findChild e (pfx "StandardPrimitiveRef") with
        | none => (self, none)
        | some spr =>
          match lookupA spr.attrib "id" with
          | none => (self, some (keyError "id"))
          | some i => ({ self with std_prim_ref := i }, none)
      match sprRes with
      | (s, some err) => (s, some err)
      | (s, none) => Pad.loadPinRef s e

/-! ## Via / PadNotUsed record (source: `IPC2581_Layer.NetVia`) -/

structure NetVia where
  pad : Option Pad
  nonstd_attrib : List (String × String)
  plate : Bool
  testPoint : Bool
deriving Repr, DecidableEq

def netViaFresh : NetVia := ⟨none, [], false, false⟩

def NetVia.nonstdStep (self : NetVia) (n : Element) : NetVia × Option String :=
  match lookupA n.attrib "name" with
  | none => (self, some (keyError "name"))
  | some nm =>
    match lookupA n.attrib "value" with
    | none => (self, some (keyError "value"))
    | some v => ({ self with nonstd_attrib := dictSet self.nonstd_attrib nm v }, none)

def NetVia.load (self : NetVia) (e : Element) : NetVia × Option String :=
  if e.tag ≠ pfx "Set" then
    (self, some ("Expected Set tag, instead got " ++ e.tag))
  else
    -- the source prints two advisory warnings about `padUsage` to stdout
    -- (missing key / value outside VIA,NONE); the membership test itself
    -- never raises, but the comparison line then reads
    -- `set_node.attrib['padUsage']` unguarded, which raises `KeyError`
    -- when the attribute is missing
    match lookupA e.attrib "padUsage" with
    | none => (self, some (keyError "padUsage"))
    | some _ =>
      let self := match lookupA e.attrib "plate" with
        | some v => { self with plate := v == "true" }
        | none => self
      let self := match lookupA e.attrib "testPoint" with
        | some v => { self with testPoint := v == "true" }
        | none => self
      let padRes : NetVia × Option String :=
        match findChild e (pfx "Pad") with
        | none => (self, none)
        | some pn =>
          let (p, err) := Pad.load padFresh pn
          ({ self with pad := some p }, err)
      match padRes with
      | (s, some err) => (s, some err)
      | (s, none) => loadLoop NetVia.nonstdStep s (findAllChildren e (pfx "NonstandardAttribute"))

/-! ## LayerNet (source: `IPC2581_Layer.LayerNet`) -/

/-- A feature is either an unresolved dictionary-reference ID
(`UserPrimitiveRef`) or a loaded geometry primitive. -/
inductive Feature where
  | ref : String → Feature
  | shape : Shape → Feature
deriving Repr, DecidableEq

structure LayerNetS where
  name : String
  feature_locations : List (Option Rat × Option Rat)
  features : List Feature
  Xform : Option IPC.Xform
deriving Repr, DecidableEq

def layerNetFresh (n : String) : LayerNetS := ⟨n, [], [], none⟩

/-- One child of a `Features` node (source: `LayerNet.load_feature` body).
`Location` appends to `feature_locations`, `Xform` replaces the net's
transform, `UserPrimitiveRef` appends a raw ID, the eight geometry tags
load and append a primitive, anything else raises. -/
def featStep (self : LayerNetS) (c : Element) : LayerNetS × Option String :=
  if c.tag = pfx "Location" then
    ({ self with feature_locations := self.feature_locations ++
        [(read_floatv c.attrib "x", read_floatv c.attrib "y")] }, none)
  else if c.tag = pfx "Xform" then
    let (x, err) := Xform.load xformFresh c
    ({ self with Xform := some x }, err)
  else if c.tag = pfx "UserPrimitiveRef" then
    match lookupA c.attrib "id" with
    | none => (self, some (keyError "id"))
    | some i => ({ self with features := self.features ++ [Feature.ref i] }, none)
  else if c.tag = pfx "Circle" then
    match Circle.load circleFresh c with
    | (sh, none) => ({ self with features := self.features ++ [Feature.shape (Shape.circle sh)] }, none)
    | (_, some err) => (self, some err)
  else if c.tag = pfx "Line" then
    match Line.load lineFresh c with
    | (sh, none) => ({ self with features := self.features ++ [Feature.shape (Shape.line sh)] }, none)
    | (_, some err) => (self, some err)
  else if c.tag = pfx "RectCenter" then
    match RectCenter.load rectCenterFresh c with
    | (sh, none) => ({ self with features := self.features ++ [Feature.shape (Shape.rectCenter sh)] }, none)
    | (_, some err) => (self, some err)
  else if c.tag = pfx "Oval" then
    match Oval.load ovalFresh c with
    | (sh, none) => ({ self with features := self.features ++ [Feature.shape (Shape.oval sh)] }, none)
    | (_, some err) => (self, some err)
  else if c.tag = pfx "Arc" then
    match Arc.load arcFresh c with
    | (sh, none) => ({ self with features := self.features ++ [Feature.shape (Shape.arc sh)] }, none)
    | (_, some err) => (self, some err)
  else if c.tag = pfx "Contour" then
    match Contour.load contourFresh c with
    | (sh, none) => ({ self with features := self.features ++ [Feature.shape (Shape.contour sh)] }, none)
    | (_, some err) => (self, some err)
  else if c.tag = pfx "Polygon" then
    match Polygon.load polygonFresh c with
    | (sh, none) => ({ self with features := self.features ++ [Feature.shape (Shape.polygon sh)] }, none)
    | (_, some err) => (self, some err)
  else if c.tag = pfx "Polyline" then
    match Polyline.load polylineFresh c with
    | (sh, none) => ({ self with features := self.features ++ [Feature.shape (Shape.polyline sh)] }, none)
    | (_, some err) => (self, some err)
  else
    (self, some ("Unknown geometry type with tag " ++ c.tag))

def LayerNetS.load_feature (self : LayerNetS) (fn : Element) : LayerNetS × Option String :=
  if fn.tag ≠ pfx "Features" then
    (self, some ("Unexpected tag " ++ fn.tag ++ ". Expected \x27Features\x27."))
  else
    loadLoop featStep self fn.children

/-! ## Per-layer feature classification (source: `IPC2581_Layer.parse_LayerFeature`)

The pieces of `IPC2581_Layer` state that `parse_LayerFeature` touches.
`nets` is the insertion-ordered dict netname → LayerNet. -/

structure LayerFeatState where
  nets : List (String × LayerNetS)
  nonet_geom : List LayerNetS
  vias : List NetVia
  pads_not_used : List NetVia
deriving Repr, DecidableEq

/-- `IPC2581_Layer.__init__`'s values for the four collections. -/
def layerFeatInit : LayerFeatState := ⟨[], [], [], []⟩

/-- Classification of one `Set` grouping, mirroring the branch structure of
the source's loop body. -/
def processSet (st : LayerFeatState) (s : Element) : LayerFeatState × Option String :=
  match lookupA s.attrib "net" with
  | some net_name =>
    match lookupA s.attrib "padUsage" with
    | some pu =>
      if pu = "VIA" then
        let (via, err) := NetVia.load netViaFresh s
        match err with
        | some e => (st, some e)
        | none => ({ st with vias := st.vias ++ [via] }, none)
      else if pu = "NONE" then
        let (pnu, err) := NetVia.load netViaFresh s
        match err with
        | some e => (st, some e)
        | none => ({ st with pads_not_used := st.pads_not_used ++ [pnu] }, none)
      else
        -- padUsage present but neither VIA nor NONE: the inner
        -- `if/elif` has no `else`, so nothing happens
        (st, none)
    | none =>
      if (lookupA s.attrib "geometry").isSome then
        -- Hole / SlotCavity: explicitly unmodeled, skipped
        (st, none)
      else
        -- net geometry: get-or-create the named LayerNet, then append
        let st1 := match lookupA st.nets net_name with
          | none => { st with nets := st.nets ++ [(net_name, layerNetFresh net_name)] }
          | some _ => st
        match lookupA st1.nets net_name with
        | none => (st1, some (keyError net_name))  -- unreachable: just inserted
        | some layernet =>
          match findChild s (pfx "Features") with
          | none => (st1, none)
          | some fn =>
            let (ln2, err) := layernet.load_feature fn
            -- the dict entry keeps the partially mutated object even
            -- when load_feature raises
            ({ st1 with nets := updateA st1.nets net_name ln2 }, err)
  | none =>
    -- no-net geometry: a fresh anonymous LayerNet, appended only when a
    -- Features child exists and its load returns normally
    match findChild s (pfx "Features") with
    | none => (st, none)
    | some fn =>
      let (ln, err) := (layerNetFresh "").load_feature fn
      match err with
      | some e => (st, some e)
      | none => ({ st with nonet_geom := st.nonet_geom ++ [ln] }, none)

/-- The `for set_node in layerfeat_node.findall(prefix('Set'))` loop.
`none` for the node means the `LayerFeature` element for this layer was
not found: the source prints a warning to stdout and returns. -/
def parse_LayerFeature (st : LayerFeatState) (layerfeat_node : Option Element) :
    LayerFeatState × Option String :=
  match layerfeat_node with
  | none => (st, none)
  | some lf => loadLoop processSet st (findAllChildren lf (pfx "Set"))

/-! ## Stackup record (source: `IPC2581_Layer.__init__` and
`parse_StackupLayer`)

`__init__` sets `thickness = 0.0`, `tolPlus = 0.0`, `tolminus = 0.0`
(note the lowercase `m`) and `sequence = -1`.  `parse_StackupLayer`
assigns `tolMinus` (capital `M`) — a distinct Python attribute that does
not exist before that assignment, modelled as `Option (Option Rat)` with
`none` for "attribute absent". -/

structure StackupFields where
  thickness : Option Rat
  tolPlus : Option Rat
  tolminus : Option Rat
  tolMinus : Option (Option Rat)
  sequence : Option Int
deriving Repr, DecidableEq

def stackupInit : StackupFields :=
  { thickness := some 0, tolPlus := some 0, tolminus := some 0,
    tolMinus := none, sequence := some (-1) }

/-- `sl_node` is the result of the `StackupLayer[@layerOrGroupRef=name]`
lookup.  Returns the new field state and the warnings printed. -/
def parse_StackupLayer (self : StackupFields) (name : String) (sl_node : Option Element) :
    StackupFields × List String :=
  match sl_node with
  | none =>
    (self, ["Warning: Could not find layer " ++ name ++ " in <StackupLayer> tags in default group."])
  | some n =>
    let (th, w1) := read_float n.attrib "thickness"
    let (tp, w2) := read_float n.attrib "tolPlus"
    let (tm, w3) := read_float n.attrib "tolMinus"
    match read_int n.attrib "sequence" with
    | .ok (sq, w4) =>
      ({ self with thickness := th, tolPlus := tp, tolMinus := some tm, sequence := sq },
       w1 ++ w2 ++ w3 ++ w4)
    -- `read_int` CAN raise (an `isnumeric`-true value `int()` rejects,
    -- see C2); the Python assignments run in order, so at the raise
    -- moment the three float fields are already assigned, `sequence` is
    -- not, and the exception propagates out of the method.  This is the
    -- field/warning state at that moment; every theorem below
    -- instantiates `sl_node = none` and never reaches this branch.
    | .error _ =>
      ({ self with thickness := th, tolPlus := tp, tolMinus := some tm },
       w1 ++ w2 ++ w3)

/-! ## Package pickup point (source: `IPC2581_Package.parse_Package`,
the `PickupPoint` block)

The fragment of `parse_Package` that sets `self.PickupPoint`: both
locals are read from the `x` attribute (`y = read_float(pickup_node.attrib,'x')`
in the source).  `cur` is the field's prior value (`(0.0, 0.0)` from
`__init__`). -/
def parse_PickupPoint (cur : Option Rat × Option Rat) (pkg_node : Element) :
    Option Rat × Option Rat :=
  match findChild pkg_node (pfx "PickupPoint") with
  | none => cur
  | some pn =>
    let x := read_floatv pn.attrib "x"
    let y := read_floatv pn.attrib "x"
    (x, y)

/-! ## Derived notions used by the statements below -/

/-- Number of `PolyBegin` children among a chain element's children. -/
def countPolyBegin (l : List Element) : Nat :=
  (l.filter (fun c => c.tag == pfx "PolyBegin")).length

/-- The children of a Contour's (first) `Polygon` child — its outer chain. -/
def contourOuterChildren (e : Element) : List Element :=
  match findChild e (pfx "Polygon") with
  | none => []
  | some poly => poly.children

/-- The Contour's `Cutout` children. -/
def contourCutouts (e : Element) : List Element :=
  findAllChildren e (pfx "Cutout")

/-- Total `PolyBegin` count across all cutout chains of a Contour element. -/
def countCutoutPolyBegin (e : Element) : Nat :=
  ((contourCutouts e).map (fun cut => countPolyBegin cut.children)).sum

/-- A `Set` grouping classified by `parse_LayerFeature` as net geometry for
net `n`: it has `net = n` and neither a `padUsage` nor a `geometry`
attribute. -/
def isNetGeomSet (n : String) (s : Element) : Bool :=
  lookupA s.attrib "net" == some n &&
  lookupA s.attrib "padUsage" == none &&
  lookupA s.attrib "geometry" == none

/-- The features one grouping contributes: what `load_feature` on a fresh
LayerNet appends from the grouping's (first) `Features` child; nothing if
there is no such child. -/
def setFeats (s : Element) : List Feature :=
  match findChild s (pfx "Features") with
  | none => []
  | some fn => ((layerNetFresh "").load_feature fn).1.features

/-- The feature locations one grouping contributes. -/
def setLocs (s : Element) : List (Option Rat × Option Rat) :=
  match findChild s (pfx "Features") with
  | none => []
  | some fn => ((layerNetFresh "").load_feature fn).1.feature_locations

/-- Document-order concatenation of the features of all net-geometry
groupings for net `n`. -/
def netContribF (n : String) (sets : List Element) : List Feature :=
  ((sets.filter (isNetGeomSet n)).map setFeats).flatten

/-- Document-order concatenation of the feature locations of all
net-geometry groupings for net `n`. -/
def netContribL (n : String) (sets : List Element) : List (Option Rat × Option Rat) :=
  ((sets.filter (isNetGeomSet n)).map setLocs).flatten

/-- A grouping with no `net` attribute that has a `Features` child — the
ones `parse_LayerFeature` turns into standalone no-net records. -/
def isNoNetFeatSet (s : Element) : Bool :=
  lookupA s.attrib "net" == none && (findChild s (pfx "Features")).isSome

/-- The standalone record a no-net grouping produces. -/
def noNetContrib (s : Element) : LayerNetS :=
  match findChild s (pfx "Features") with
  | none => layerNetFresh ""
  | some fn => ((layerNetFresh "").load_feature fn).1

/-- The seven tags the `UserSpecial` dispatch recognizes (`Polygon` is
missing from its `if/elif` chain). -/
def userSpecialGeomTags : List String :=
  [pfx "Circle", pfx "Line", pfx "RectCenter", pfx "Oval", pfx "Arc",
   pfx "Contour", pfx "Polyline"]

/-- The eight closed geometry variant tags. -/
def geomTags8 : List String :=
  [pfx "Circle", pfx "Line", pfx "RectCenter", pfx "Oval", pfx "Arc",
   pfx "Contour", pfx "Polygon", pfx "Polyline"]

/-- The non-geometry child tags `load_feature` handles specially. -/
def featExtraTags : List String :=
  [pfx "Location", pfx "Xform", pfx "UserPrimitiveRef"]

/-- Concrete example input: a `LayerFeature` node with two `Set` groupings
sharing net name "GND" — the first carries a circle of diameter 3 and a
location (1,2), the second a circle of diameter 5. -/
def exLayerFeatureGnd : Element :=
  Element.mk (pfx "LayerFeature") [("layerRef", "TOP")]
    [Element.mk (pfx "Set") [("net", "GND")]
      [Element.mk (pfx "Features") []
        [Element.mk (pfx "Circle") [("diameter", "3")] [],
         Element.mk (pfx "Location") [("x", "1"), ("y", "2")] []]],
     Element.mk (pfx "Set") [("net", "GND")]
      [Element.mk (pfx "Features") []
        [Element.mk (pfx "Circle") [("diameter", "5")] []]]]

/-- Concrete example input: a `LayerFeature` node with two no-net `Set`
groupings, each carrying one circle. -/
def exLayerFeatureNoNet : Element :=
  Element.mk (pfx "LayerFeature") [("layerRef", "TOP")]
    [Element.mk (pfx "Set") []
      [Element.mk (pfx "Features") []
        [Element.mk (pfx "Circle") [("diameter", "1")] []]],
     Element.mk (pfx "Set") []
      [Element.mk (pfx "Features") []
        [Element.mk (pfx "Circle") [("diameter", "2")] []]]]

/-- How processing a list of `Set` groupings transforms the per-layer net
dictionary: every pre-existing entry survives with the document-order
concatenation of the new net-geometry contributions appended to its
parallel lists, a fresh entry appears exactly for the net names with at
least one net-geometry grouping, and key uniqueness is preserved. -/
def NetsSpec (sets : List Element) (st st' : LayerFeatState) : Prop :=
  (∀ n ln, lookupA st.nets n = some ln →
    ∃ ln', lookupA st'.nets n = some ln' ∧ ln'.name = ln.name ∧
      ln'.features = ln.features ++ netContribF n sets ∧
      ln'.feature_locations = ln.feature_locations ++ netContribL n sets) ∧
  (∀ n, lookupA st.nets n = none →
    (sets.filter (isNetGeomSet n) = [] → lookupA st'.nets n = none) ∧
    (sets.filter (isNetGeomSet n) ≠ [] →
      ∃ ln', lookupA st'.nets n = some ln' ∧ ln'.name = n ∧
        ln'.features = netContribF n sets ∧
        ln'.feature_locations = netContribL n sets)) ∧
  ((st.nets.map Prod.fst).Nodup → (st'.nets.map Prod.fst).Nodup)

/-! # Theorems

First, basic facts about the association-list dictionary model. -/

theorem lookupA_append_left {α : Type} {l₁ : List (String × α)} (l₂ : List (String × α))
    {k : String} {v : α} (h : lookupA l₁ k = some v) : lookupA (l₁ ++ l₂) k = some v := by
  induction l₁ with
  | nil => simp [lookupA] at h
  | cons hd tl ih =>
    obtain ⟨k1, v1⟩ := hd
    simp only [lookupA] at h
    by_cases hk : k1 = k
    · simp only [List.cons_append, lookupA, hk, if_pos rfl]
      simpa [hk] using h
    · simp only [List.cons_append, lookupA, hk, if_false]
      exact ih (by simpa [hk] using h)

theorem lookupA_append_right {α : Type} {l₁ : List (String × α)} (l₂ : List (String × α))
    {k : String} (h : lookupA l₁ k = none) : lookupA (l₁ ++ l₂) k = lookupA l₂ k := by
  induction l₁ with
  | nil => simp
  | cons hd tl ih =>
    obtain ⟨k1, v1⟩ := hd
    simp only [lookupA] at h
    by_cases hk : k1 = k
    · simp [hk] at h
    · simp only [List.cons_append, lookupA, hk, if_false]
      exact ih (by simpa [hk] using h)

theorem lookupA_eq_none_iff {α : Type} (l : List (String × α)) (k : String) :
    lookupA l k = none ↔ k ∉ l.map Prod.fst := by
  induction l with
  | nil => simp [lookupA]
  | cons hd tl ih =>
    obtain ⟨k1, v1⟩ := hd
    by_cases h : k1 = k
    · simp [lookupA, h]
    · simp [lookupA, h, ih, Ne.symm h]

theorem updateA_map_fst {α : Type} (l : List (String × α)) (k : String) (v : α) :
    (updateA l k v).map Prod.fst = l.map Prod.fst := by
  induction l with
  | nil => rfl
  | cons hd tl ih =>
    obtain ⟨k1, v1⟩ := hd
    by_cases h : k1 = k <;> simp [updateA, h, ih]

theorem lookupA_updateA_self {α : Type} {l : List (String × α)} {k : String} (v : α)
    (h : (lookupA l k).isSome) : lookupA (updateA l k v) k = some v := by
  induction l with
  | nil => simp [lookupA] at h
  | cons hd tl ih =>
    obtain ⟨k1, v1⟩ := hd
    by_cases hk : k1 = k
    · simp [updateA, lookupA, hk]
    · simp only [lookupA, hk, if_false] at h
      simp only [updateA, hk, if_false, lookupA]
      exact ih h

theorem lookupA_updateA_ne {α : Type} {l : List (String × α)} {k k' : String} (v : α)
    (h : k' ≠ k) : lookupA (updateA l k v) k' = lookupA l k' := by
  induction l with
  | nil => rfl
  | cons hd tl ih =>
    obtain ⟨k1, v1⟩ := hd
    by_cases hk : k1 = k
    · simp [updateA, lookupA, hk, Ne.symm h]
    · by_cases hk' : k1 = k' <;> simp [updateA, lookupA, hk, hk', h, ih]

/-! ## Claim C2 — the three typed attribute coercers -/

/-- C2, counterexample: two parts of the claim fail.  The boolean coercer
maps the present, non-boolean value `"banana"` to the value `false`
(not to no-value) and emits no diagnostic — its source has no warning
path at all.  And the integer coercer raises: on a present value that
passes `isnumeric` but that `int()` rejects, such as the superscript
`"²"`, the unguarded `int(val)` after the `isnumeric` test raises a
`ValueError` that nothing catches, aborting parsing. -/
theorem claim_C2_counterexample :
    read_bool [("k", "banana")] "k" = some false ∧
    read_int [("k", "²")] "k" =
      .error ("ValueError: invalid literal for int() with base 10: \x27²\x27") :=
  ⟨rfl, rfl⟩

/-- C2, amended: the float coercer fully obeys the contract — a missing
key yields no value and no diagnostic, a value `float()` rejects yields
no value plus a warning, a value `float()` accepts yields it with no
warning — and it can never raise, catching the `ValueError` itself.  The
integer coercer obeys the contract for a missing key and for present
values failing `isnumeric` (warning plus no value), and values `int()`
accepts parse cleanly; but a present `isnumeric`-true value that `int()`
rejects — a non-decimal numeric such as `"²"` — raises an uncaught
`ValueError`, aborting parsing.  The boolean coercer yields no value
only for a missing key and never raises, but it maps every present value
to a boolean — `true` iff the value lowercases to `"true"` — with no
unparsable case and no diagnostic. -/
theorem claim_C2_amended (d : List (String × String)) (k : String) :
    (lookupA d k = none →
      read_int d k = .ok (none, []) ∧ read_float d k = (none, []) ∧ read_bool d k = none) ∧
    (∀ val, lookupA d k = some val → pyStrIsNumeric val = false →
      read_int d k =
        .ok (none, ["Warning: Could not convert value " ++ val ++ " to int. Returning None."])) ∧
    (∀ val msg, lookupA d k = some val → pyStrIsNumeric val = true →
      pyIntOfString val = .error msg → read_int d k = .error msg) ∧
    (∀ val z, lookupA d k = some val → pyStrIsNumeric val = true →
      pyIntOfString val = .ok z → read_int d k = .ok (some z, [])) ∧
    (∀ val, lookupA d k = some val → pyFloatParse val = none →
      read_float d k =
        (none, ["Warning: Could not convert value \x7bval\x7d to float. Returning None."])) ∧
    (∀ val v, lookupA d k = some val → pyFloatParse val = some v →
      read_float d k = (v, [])) ∧
    (∀ val, lookupA d k = some val → read_bool d k = some (pyLower val == "true")) := by
  refine ⟨?_, ?_, ?_, ?_, ?_, ?_, ?_⟩
  · intro h
    refine ⟨?_, ?_, ?_⟩ <;> simp [read_int, read_float, read_bool, h]
  · intro val h hval
    simp [read_int, h, hval]
  · intro val msg h hn hp
    simp [read_int, h, hn, hp, Except.map]
  · intro val z h hn hp
    simp [read_int, h, hn, hp, Except.map]
  · intro val h hval
    simp [read_float, h, hval]
  · intro val v h hval
    simp [read_float, h, hval]
  · intro val h
    simp [read_bool, h]

/-- C2, witness: the amended theorem applied at concrete inputs — a
missing key; the unparsable value `"12x"` for each coercer; the
numeric-but-not-decimal value `"²"` (int raise); and the decimal value
`"37"` (int and float successes). -/
theorem claim_C2_witness :
    read_int [("a", "1")] "k" = .ok (none, []) ∧
    read_int [("k", "12x")] "k" =
      .ok (none, ["Warning: Could not convert value 12x to int. Returning None."]) ∧
    read_int [("k", "²")] "k" =
      .error ("ValueError: invalid literal for int() with base 10: \x27²\x27") ∧
    read_int [("k", "37")] "k" = .ok (some 37, []) ∧
    read_float [("k", "12x")] "k" =
      (none, ["Warning: Could not convert value \x7bval\x7d to float. Returning None."]) ∧
    read_float [("k", "37")] "k" = (some 37, []) ∧
    read_bool [("k", "12x")] "k" = some false := by
  refine ⟨((claim_C2_amended [("a", "1")] "k").1 (by rfl)).1, ?_, ?_, ?_, ?_, ?_, ?_⟩
  · exact (claim_C2_amended [("k", "12x")] "k").2.1 "12x" (by rfl) (by rfl)
  · exact (claim_C2_amended [("k", "²")] "k").2.2.1 "²"
      ("ValueError: invalid literal for int() with base 10: \x27²\x27") (by rfl) (by rfl) (by rfl)
  · exact (claim_C2_amended [("k", "37")] "k").2.2.2.1 "37" 37 (by rfl) (by rfl) (by rfl)
  · exact (claim_C2_amended [("k", "12x")] "k").2.2.2.2.1 "12x" (by rfl) (by rfl)
  · exact (claim_C2_amended [("k", "37")] "k").2.2.2.2.2.1 "37" (some 37) (by rfl) (by decide)
  · have h := (claim_C2_amended [("k", "12x")] "k").2.2.2.2.2.2 "12x" (by rfl)
    rw [h]
    rfl

/-! ## Claim C5 — Transform per-field defaulting -/

/-- Characterization of `Xform.load` on a matching tag: each field is an
independent conditional update. -/
theorem Xform_load_fields (t : Xform) (e : Element) (h : e.tag = pfx "Xform") :
    Xform.load t e =
      ({ rotation := if (lookupA e.attrib "rotation").isSome then
            read_floatv e.attrib "rotation" else t.rotation,
         mirror := if (lookupA e.attrib "mirror").isSome then
            read_bool e.attrib "mirror" else t.mirror,
         xOffset := if (lookupA e.attrib "xOffset").isSome then
            read_floatv e.attrib "xOffset" else t.xOffset,
         yOffset := if (lookupA e.attrib "yOffset").isSome then
            read_floatv e.attrib "yOffset" else t.yOffset }, none) := by
  unfold Xform.load
  simp only [h, ne_eq, not_true_eq_false, if_false, ite_false]
  split_ifs <;> rfl

/-- C5: loading a `Transform` from an `Xform` element handles the four
fields independently — a field whose attribute is absent keeps the value
supplied at construction (the arbitrary `r`, `m`, `x`, `y` below, not
unconditionally zero/false), while a present attribute replaces the field
with the parsed value (`read_float`/`read_bool` result); the load itself
raises nothing. -/
theorem claim_C5_transform_fields (r : Option Rat) (m : Option Bool) (x y : Option Rat)
    (e : Element) (h : e.tag = pfx "Xform") :
    (Xform.load ⟨r, m, x, y⟩ e).2 = none ∧
    (lookupA e.attrib "rotation" = none → (Xform.load ⟨r, m, x, y⟩ e).1.rotation = r) ∧
    ((lookupA e.attrib "rotation").isSome →
      (Xform.load ⟨r, m, x, y⟩ e).1.rotation = read_floatv e.attrib "rotation") ∧
    (lookupA e.attrib "mirror" = none → (Xform.load ⟨r, m, x, y⟩ e).1.mirror = m) ∧
    ((lookupA e.attrib "mirror").isSome →
      (Xform.load ⟨r, m, x, y⟩ e).1.mirror = read_bool e.attrib "mirror") ∧
    (lookupA e.attrib "xOffset" = none → (Xform.load ⟨r, m, x, y⟩ e).1.xOffset = x) ∧
    ((lookupA e.attrib "xOffset").isSome →
      (Xform.load ⟨r, m, x, y⟩ e).1.xOffset = read_floatv e.attrib "xOffset") ∧
    (lookupA e.attrib "yOffset" = none → (Xform.load ⟨r, m, x, y⟩ e).1.yOffset = y) ∧
    ((lookupA e.attrib "yOffset").isSome →
      (Xform.load ⟨r, m, x, y⟩ e).1.yOffset = read_floatv e.attrib "yOffset") := by
  rw [Xform_load_fields ⟨r, m, x, y⟩ e h]
  refine ⟨rfl, ?_, ?_, ?_, ?_, ?_, ?_, ?_, ?_⟩ <;> intro hc <;> simp [hc]

/-- C5, witness: a concrete load where `rotation` is absent but the other
three attributes are present — rotation keeps the constructed value
`some 7`, the present fields are replaced by their parsed values
(including `none` for the unparsable `yOffset`). -/
theorem claim_C5_witness :
    ((Xform.load ⟨some 7, some true, none, some 1⟩
        (Element.mk (pfx "Xform")
          [("mirror", "TRUE"), ("xOffset", "25"), ("yOffset", "zz")] [])).2 = none) ∧
    ((Xform.load ⟨some 7, some true, none, some 1⟩
        (Element.mk (pfx "Xform")
          [("mirror", "TRUE"), ("xOffset", "25"), ("yOffset", "zz")] [])).1.rotation = some 7) ∧
    ((Xform.load ⟨some 7, some true, none, some 1⟩
        (Element.mk (pfx "Xform")
          [("mirror", "TRUE"), ("xOffset", "25"), ("yOffset", "zz")] [])).1.mirror = some true) ∧
    ((Xform.load ⟨some 7, some true, none, some 1⟩
        (Element.mk (pfx "Xform")
          [("mirror", "TRUE"), ("xOffset", "25"), ("yOffset", "zz")] [])).1.xOffset = some 25) ∧
    ((Xform.load ⟨some 7, some true, none, some 1⟩
        (Element.mk (pfx "Xform")
          [("mirror", "TRUE"), ("xOffset", "25"), ("yOffset", "zz")] [])).1.yOffset = none) := by
  have hmain := claim_C5_transform_fields (some 7) (some true) none (some 1)
    (Element.mk (pfx "Xform")
      [("mirror", "TRUE"), ("xOffset", "25"), ("yOffset", "zz")] []) (by rfl)
  refine ⟨hmain.1, hmain.2.1 (by rfl), ?_, ?_, ?_⟩
  · rw [hmain.2.2.2.2.1 (by decide)]
    decide
  · rw [hmain.2.2.2.2.2.2.1 (by decide)]
    decide
  · rw [hmain.2.2.2.2.2.2.2.2 (by decide)]
    decide

/-! ## Claim C6 — missing stackup record defaults -/

/-- C6, counterexample: with no stackup record the sequence index is left
at `-1` (its `__init__` value), not at a zero-value default as the claim
states. -/
theorem claim_C6_counterexample :
    (parse_StackupLayer stackupInit "L1" none).1.sequence ≠ some 0 := by
  decide

/-- C6, amended: when no stackup record exists for the layer name, the
build emits the warning and leaves the whole record at its `__init__`
state without aborting: thickness `0.0`, both tolerances `0.0`, and the
sequence index at `-1` (not zero). -/
theorem claim_C6_stackup_missing (name : String) :
    parse_StackupLayer stackupInit name none =
      (stackupInit,
       ["Warning: Could not find layer " ++ name ++ " in <StackupLayer> tags in default group."]) ∧
    stackupInit.thickness = some 0 ∧ stackupInit.tolPlus = some 0 ∧
    stackupInit.tolminus = some 0 ∧ stackupInit.sequence = some (-1) :=
  ⟨rfl, rfl, rfl, rfl, rfl⟩

/-- C6, witness: the amended theorem at the concrete layer name "TOP". -/
theorem claim_C6_witness :
    parse_StackupLayer stackupInit "TOP" none =
      (stackupInit,
       ["Warning: Could not find layer TOP in <StackupLayer> tags in default group."]) :=
  (claim_C6_stackup_missing "TOP").1

/-! ## Claim C9 — the pickup point reads both coordinates from `x` -/

/-- C9: when the `PickupPoint` element is present, both stored coordinates
come from its `x` attribute (`y = read_float(pickup_node.attrib,'x')` in
the source), so the second coordinate always equals the `x` attribute's
parsed value and the `y` attribute is never consulted. -/
theorem claim_C9_pickup_from_x (cur : Option Rat × Option Rat) (node pn : Element)
    (h : findChild node (pfx "PickupPoint") = some pn) :
    parse_PickupPoint cur node = (read_floatv pn.attrib "x", read_floatv pn.attrib "x") := by
  simp [parse_PickupPoint, h]

/-- C9, witness: with `x="15"` and `y="9"` the stored point is
`(15, 15)` — the `y` attribute is ignored. -/
theorem claim_C9_witness :
    parse_PickupPoint (some 0, some 0)
      (Element.mk (pfx "Package") []
        [Element.mk (pfx "PickupPoint") [("x", "15"), ("y", "9")] []]) =
      (some 15, some 15) := by
  have h := claim_C9_pickup_from_x (some 0, some 0)
    (Element.mk (pfx "Package") []
      [Element.mk (pfx "PickupPoint") [("x", "15"), ("y", "9")] []])
    (Element.mk (pfx "PickupPoint") [("x", "15"), ("y", "9")] []) (by rfl)
  rw [h]
  decide

/-! ## Claim C7 — tag mismatch aborts every shape load unchanged -/

/-- C7: for every shape variant (and for `Transform`), calling `load` on
an element whose tag differs from the variant's canonical tag raises a
`ValueError` whose message names both the expected tag and the actual tag
(`e.tag`), and returns the object exactly as it was — the equality with
`(s, some msg)` records that no field was modified. -/
theorem claim_C7_tag_mismatch :
    (∀ (s : Circle) (e : Element), e.tag ≠ pfx "Circle" →
      Circle.load s e = (s, some ("Expected tag to be Circle, instead got " ++ e.tag))) ∧
    (∀ (s : Line) (e : Element), e.tag ≠ pfx "Line" →
      Line.load s e = (s, some ("Expected Line tag, instead got " ++ e.tag))) ∧
    (∀ (s : RectCenter) (e : Element), e.tag ≠ pfx "RectCenter" →
      RectCenter.load s e = (s, some ("Expected RectCenter tag, instead got " ++ e.tag))) ∧
    (∀ (s : Oval) (e : Element), e.tag ≠ pfx "Oval" →
      Oval.load s e = (s, some ("Expected Oval tag, instead got " ++ e.tag))) ∧
    (∀ (s : Arc) (e : Element), e.tag ≠ pfx "Arc" →
      Arc.load s e = (s, some ("Expected Arc tag, instead got " ++ e.tag))) ∧
    (∀ (s : Polygon) (e : Element), e.tag ≠ pfx "Polygon" →
      Polygon.load s e = (s, some ("Expected Polygon tag, instead got " ++ e.tag))) ∧
    (∀ (s : Polyline) (e : Element), e.tag ≠ pfx "Polyline" →
      Polyline.load s e = (s, some ("Expected Polyline tag, instead got " ++ e.tag))) ∧
    (∀ (s : Contour) (e : Element), e.tag ≠ pfx "Contour" →
      Contour.load s e = (s, some ("Expected Contour tag, instead got " ++ e.tag))) ∧
    (∀ (s : Xform) (e : Element), e.tag ≠ pfx "Xform" →
      Xform.load s e = (s, some ("Expected tag Xform, instead got " ++ e.tag))) := by
  refine ⟨?_, ?_, ?_, ?_, ?_, ?_, ?_, ?_, ?_⟩ <;> intro s e h
  · simp [Circle.load, h]
  · simp [Line.load, h]
  · simp [RectCenter.load, h]
  · simp [Oval.load, h]
  · simp [Arc.load, h]
  · simp [Polygon.load, h]
  · simp [Polyline.load, h]
  · simp [Contour.load, h]
  · simp [Xform.load, h]

/-- C7, witness: each load applied to a concrete element with the foreign
tag `"Bogus"` — every one returns its input state unchanged together with
the mismatch message. -/
theorem claim_C7_witness :
    Circle.load circleFresh (Element.mk "Bogus" [] []) =
      (circleFresh, some ("Expected tag to be Circle, instead got " ++ "Bogus")) ∧
    Line.load lineFresh (Element.mk "Bogus" [] []) =
      (lineFresh, some ("Expected Line tag, instead got " ++ "Bogus")) ∧
    RectCenter.load rectCenterFresh (Element.mk "Bogus" [] []) =
      (rectCenterFresh, some ("Expected RectCenter tag, instead got " ++ "Bogus")) ∧
    Oval.load ovalFresh (Element.mk "Bogus" [] []) =
      (ovalFresh, some ("Expected Oval tag, instead got " ++ "Bogus")) ∧
    Arc.load arcFresh (Element.mk "Bogus" [] []) =
      (arcFresh, some ("Expected Arc tag, instead got " ++ "Bogus")) ∧
    Polygon.load polygonFresh (Element.mk "Bogus" [] []) =
      (polygonFresh, some ("Expected Polygon tag, instead got " ++ "Bogus")) ∧
    Polyline.load polylineFresh (Element.mk "Bogus" [] []) =
      (polylineFresh, some ("Expected Polyline tag, instead got " ++ "Bogus")) ∧
    Contour.load contourFresh (Element.mk "Bogus" [] []) =
      (contourFresh, some ("Expected Contour tag, instead got " ++ "Bogus")) ∧
    Xform.load xformFresh (Element.mk "Bogus" [] []) =
      (xformFresh, some ("Expected tag Xform, instead got " ++ "Bogus")) :=
  ⟨claim_C7_tag_mismatch.1 circleFresh (Element.mk "Bogus" [] []) (by decide),
   claim_C7_tag_mismatch.2.1 lineFresh (Element.mk "Bogus" [] []) (by decide),
   claim_C7_tag_mismatch.2.2.1 rectCenterFresh (Element.mk "Bogus" [] []) (by decide),
   claim_C7_tag_mismatch.2.2.2.1 ovalFresh (Element.mk "Bogus" [] []) (by decide),
   claim_C7_tag_mismatch.2.2.2.2.1 arcFresh (Element.mk "Bogus" [] []) (by decide),
   claim_C7_tag_mismatch.2.2.2.2.2.1 polygonFresh (Element.mk "Bogus" [] []) (by decide),
   claim_C7_tag_mismatch.2.2.2.2.2.2.1 polylineFresh (Element.mk "Bogus" [] []) (by decide),
   claim_C7_tag_mismatch.2.2.2.2.2.2.2.1 contourFresh (Element.mk "Bogus" [] []) (by decide),
   claim_C7_tag_mismatch.2.2.2.2.2.2.2.2 xformFresh (Element.mk "Bogus" [] []) (by decide)⟩

/-! ## Claim C10 — net + padUsage outside VIA/NONE contributes nothing -/

/-- C10: a feature grouping with a `net` attribute and a `padUsage`
attribute whose value is neither `"VIA"` nor `"NONE"` is classified into
the pad/via branch, whose inner `if/elif` has no `else`: the grouping
contributes nothing — the whole layer state (vias, pads-not-used, nets,
no-net geometry) is returned unchanged — and no error is raised. -/
theorem claim_C10_padusage_other (st : LayerFeatState) (s : Element) (n u : String)
    (hn : lookupA s.attrib "net" = some n) (hu : lookupA s.attrib "padUsage" = some u)
    (hv : u ≠ "VIA") (ho : u ≠ "NONE") :
    processSet st s = (st, none) := by
  simp [processSet, hn, hu, hv, ho]

/-- C10, witness: a concrete grouping with `padUsage="TOOLING_HOLE"` — even
though it carries a `Features` child with a feature inside, processing it
from the empty layer state changes nothing and raises nothing. -/
theorem claim_C10_witness :
    processSet layerFeatInit
      (Element.mk (pfx "Set") [("net", "GND"), ("padUsage", "TOOLING_HOLE")]
        [Element.mk (pfx "Features") []
          [Element.mk (pfx "Circle") [("diameter", "3")] []]]) =
      (layerFeatInit, none) :=
  claim_C10_padusage_other layerFeatInit
    (Element.mk (pfx "Set") [("net", "GND"), ("padUsage", "TOOLING_HOLE")]
      [Element.mk (pfx "Features") []
        [Element.mk (pfx "Circle") [("diameter", "3")] []]])
    "GND" "TOOLING_HOLE" (by rfl) (by rfl) (by decide) (by decide)

/-! ## Claim C1 — chain length bookkeeping

The generic accounting lemma: if each successful step of a loop changes a
"points" measure by the same amount as a "connections" measure plus a
per-element count, the whole successful loop does too. -/

theorem loadLoop_counts {σ : Type} (step : σ → Element → σ × Option String)
    (pts conns : σ → Nat) (cnt : Element → Nat)
    (hstep : ∀ s c s', step s c = (s', none) →
      pts s' + conns s = conns s' + pts s + cnt c) :
    ∀ (cs : List Element) (s₀ s : σ), loadLoop step s₀ cs = (s, none) →
      pts s + conns s₀ = conns s + pts s₀ + (cs.map cnt).sum := by
  intro cs
  induction cs with
  | nil =>
    intro s₀ s h
    simp only [loadLoop, Prod.mk.injEq] at h
    obtain ⟨rfl, -⟩ := h
    simp
    omega
  | cons c cs ih =>
    intro s₀ s h
    unfold loadLoop at h
    cases hstep0 : step s₀ c with
    | mk s₁ err =>
      rw [hstep0] at h
      cases err with
      | none =>
        have h₁ := hstep s₀ c s₁ hstep0
        have h₂ := ih s₁ s h
        simp only [List.map_cons, List.sum_cons]
        omega
      | some e => simp at h

theorem countPolyBegin_eq_sum (cs : List Element) :
    countPolyBegin cs =
      (cs.map (fun c => if c.tag == pfx "PolyBegin" then 1 else 0)).sum := by
  induction cs with
  | nil => rfl
  | cons c cs ih =>
    by_cases h : c.tag = pfx "PolyBegin" <;>
      simp [countPolyBegin, List.filter_cons, beq_iff_eq, h, ih] <;>
      simp [countPolyBegin] at ih <;> omega

theorem Polygon_step_counts (s c s') (h : Polygon.step s c = (s', none)) :
    s'.points.length + s.connections.length =
      s'.connections.length + s.points.length +
        (if c.tag == pfx "PolyBegin" then 1 else 0) := by
  unfold Polygon.step at h
  split_ifs at h with h1 h2 h3
  · cases hg : getPtAttrs c "x" "y" <;> rw [hg] at h <;>
      simp only [Prod.mk.injEq] at h
    · exact absurd h.2 (by simp)
    · obtain ⟨rfl, -⟩ := h
      simp [beq_iff_eq, h1]
      omega
  · cases hg : getPtAttrs c "x" "y" <;> rw [hg] at h <;>
      simp only [Prod.mk.injEq] at h
    · exact absurd h.2 (by simp)
    · obtain ⟨rfl, -⟩ := h
      simp [beq_iff_eq, h1]
      omega
  · cases hg : getPtAttrs c "x" "y" <;> rw [hg] at h <;>
      simp only [Prod.mk.injEq] at h
    · exact absurd h.2 (by simp)
    · cases hg2 : getPtAttrs c "centerX" "centerY" <;> rw [hg2] at h <;>
        simp only [Prod.mk.injEq] at h
      · exact absurd h.2 (by simp)
      · cases hg3 : getAttr c "clockwise" <;> rw [hg3] at h <;>
          simp only [Prod.mk.injEq] at h
        · exact absurd h.2 (by simp)
        · obtain ⟨rfl, -⟩ := h
          simp [beq_iff_eq, h1]
          omega
  · simp only [Prod.mk.injEq] at h
    obtain ⟨rfl, -⟩ := h
    simp [beq_iff_eq, h1]
    omega

theorem Polyline_step_counts (s c s') (h : Polyline.step s c = (s', none)) :
    s'.points.length + s.connections.length =
      s'.connections.length + s.points.length +
        (if c.tag == pfx "PolyBegin" then 1 else 0) := by
  unfold Polyline.step at h
  split_ifs at h with h1 h2 h3 h4
  · cases hg : getPtAttrs c "x" "y" <;> rw [hg] at h <;>
      simp only [Prod.mk.injEq] at h
    · exact absurd h.2 (by simp)
    · obtain ⟨rfl, -⟩ := h
      simp [beq_iff_eq, h1]
      omega
  · cases hg : getPtAttrs c "x" "y" <;> rw [hg] at h <;>
      simp only [Prod.mk.injEq] at h
    · exact absurd h.2 (by simp)
    · obtain ⟨rfl, -⟩ := h
      simp [beq_iff_eq, h1]
      omega
  · cases hg : getPtAttrs c "x" "y" <;> rw [hg] at h <;>
      simp only [Prod.mk.injEq] at h
    · exact absurd h.2 (by simp)
    · cases hg2 : getPtAttrs c "centerX" "centerY" <;> rw [hg2] at h <;>
        simp only [Prod.mk.injEq] at h
      · exact absurd h.2 (by simp)
      · cases hg3 : getAttr c "clockwise" <;> rw [hg3] at h <;>
          simp only [Prod.mk.injEq] at h
        · exact absurd h.2 (by simp)
        · obtain ⟨rfl, -⟩ := h
          simp [beq_iff_eq, h1]
          omega
  · cases hg : lookupA c.attrib "lineEnd" <;> rw [hg] at h <;>
      simp only [Prod.mk.injEq] at h
    · exact absurd h.2 (by simp)
    · obtain ⟨rfl, -⟩ := h
      simp [beq_iff_eq, h1]
      omega
  · simp only [Prod.mk.injEq] at h
    obtain ⟨rfl, -⟩ := h
    simp [beq_iff_eq, h1]
    omega

theorem Contour_outerStep_counts (s c s') (h : Contour.outerStep s c = (s', none)) :
    s'.points.length + s.connections.length =
      s'.connections.length + s.points.length +
        (if c.tag == pfx "PolyBegin" then 1 else 0) := by
  unfold Contour.outerStep at h
  split_ifs at h with h1 h2 h3 h4
  · cases hg : getPtAttrs c "x" "y" <;> rw [hg] at h <;>
      simp only [Prod.mk.injEq] at h
    · exact absurd h.2 (by simp)
    · obtain ⟨rfl, -⟩ := h
      simp [beq_iff_eq, h1]
      omega
  · cases hg : getPtAttrs c "x" "y" <;> rw [hg] at h <;>
      simp only [Prod.mk.injEq] at h
    · exact absurd h.2 (by simp)
    · obtain ⟨rfl, -⟩ := h
      simp [beq_iff_eq, h1]
      omega
  · cases hg : getPtAttrs c "x" "y" <;> rw [hg] at h <;>
      simp only [Prod.mk.injEq] at h
    · exact absurd h.2 (by simp)
    · cases hg2 : getPtAttrs c "centerX" "centerY" <;> rw [hg2] at h <;>
        simp only [Prod.mk.injEq] at h
      · exact absurd h.2 (by simp)
      · cases hg3 : getAttr c "clockwise" <;> rw [hg3] at h <;>
          simp only [Prod.mk.injEq] at h
        · exact absurd h.2 (by simp)
        · obtain ⟨rfl, -⟩ := h
          simp [beq_iff_eq, h1]
          omega
  · cases hg : lookupA c.attrib "id" <;> rw [hg] at h <;>
      simp only [Prod.mk.injEq] at h
    · exact absurd h.2 (by simp)
    · obtain ⟨rfl, -⟩ := h
      simp [beq_iff_eq, h1]
      omega
  · simp only [Prod.mk.injEq] at h
    obtain ⟨rfl, -⟩ := h
    simp [beq_iff_eq, h1]
    omega

/-- `Contour.outerStep` never touches the cutout lists. -/
theorem Contour_outerStep_cut_counts (s c s') (h : Contour.outerStep s c = (s', none)) :
    s'.cutout_points.length + s.cutout_connections.length =
      s'.cutout_connections.length + s.cutout_points.length + 0 := by
  unfold Contour.outerStep at h
  split_ifs at h with h1 h2 h3 h4
  · cases hg : getPtAttrs c "x" "y" <;> rw [hg] at h <;>
      simp only [Prod.mk.injEq] at h
    · exact absurd h.2 (by simp)
    · obtain ⟨rfl, -⟩ := h
      simp
      omega
  · cases hg : getPtAttrs c "x" "y" <;> rw [hg] at h <;>
      simp only [Prod.mk.injEq] at h
    · exact absurd h.2 (by simp)
    · obtain ⟨rfl, -⟩ := h
      simp
      omega
  · cases hg : getPtAttrs c "x" "y" <;> rw [hg] at h <;>
      simp only [Prod.mk.injEq] at h
    · exact absurd h.2 (by simp)
    · cases hg2 : getPtAttrs c "centerX" "centerY" <;> rw [hg2] at h <;>
        simp only [Prod.mk.injEq] at h
      · exact absurd h.2 (by simp)
      · cases hg3 : getAttr c "clockwise" <;> rw [hg3] at h <;>
          simp only [Prod.mk.injEq] at h
        · exact absurd h.2 (by simp)
        · obtain ⟨rfl, -⟩ := h
          simp
          omega
  · cases hg : lookupA c.attrib "id" <;> rw [hg] at h <;>
      simp only [Prod.mk.injEq] at h
    · exact absurd h.2 (by simp)
    · obtain ⟨rfl, -⟩ := h
      simp
      omega
  · simp only [Prod.mk.injEq] at h
    obtain ⟨rfl, -⟩ := h
    simp
    omega

theorem Contour_cutoutStep_counts (s c s') (h : Contour.cutoutStep s c = (s', none)) :
    s'.cutout_points.length + s.cutout_connections.length =
      s'.cutout_connections.length + s.cutout_points.length +
        (if c.tag == pfx "PolyBegin" then 1 else 0) := by
  unfold Contour.cutoutStep at h
  split_ifs at h with h1 h2 h3
  · cases hg : getPtAttrs c "x" "y" <;> rw [hg] at h <;>
      simp only [Prod.mk.injEq] at h
    · exact absurd h.2 (by simp)
    · obtain ⟨rfl, -⟩ := h
      simp [beq_iff_eq, h1]
      omega
  · cases hg : getPtAttrs c "x" "y" <;> rw [hg] at h <;>
      simp only [Prod.mk.injEq] at h
    · exact absurd h.2 (by simp)
    · obtain ⟨rfl, -⟩ := h
      simp [beq_iff_eq, h1]
      omega
  · cases hg : getPtAttrs c "x" "y" <;> rw [hg] at h <;>
      simp only [Prod.mk.injEq] at h
    · exact absurd h.2 (by simp)
    · cases hg2 : getPtAttrs c "centerX" "centerY" <;> rw [hg2] at h <;>
        simp only [Prod.mk.injEq] at h
      · exact absurd h.2 (by simp)
      · cases hg3 : getAttr c "clockwise" <;> rw [hg3] at h <;>
          simp only [Prod.mk.injEq] at h
        · exact absurd h.2 (by simp)
        · obtain ⟨rfl, -⟩ := h
          simp [beq_iff_eq, h1]
          omega
  · simp only [Prod.mk.injEq] at h
    obtain ⟨rfl, -⟩ := h
    simp [beq_iff_eq, h1]
    omega

/-- `Contour.cutoutStep` never touches the outer chain lists. -/
theorem Contour_cutoutStep_outer_counts (s c s') (h : Contour.cutoutStep s c = (s', none)) :
    s'.points.length + s.connections.length =
      s'.connections.length + s.points.length + 0 := by
  unfold Contour.cutoutStep at h
  split_ifs at h with h1 h2 h3
  · cases hg : getPtAttrs c "x" "y" <;> rw [hg] at h <;>
      simp only [Prod.mk.injEq] at h
    · exact absurd h.2 (by simp)
    · obtain ⟨rfl, -⟩ := h
      simp
      omega
  · cases hg : getPtAttrs c "x" "y" <;> rw [hg] at h <;>
      simp only [Prod.mk.injEq] at h
    · exact absurd h.2 (by simp)
    · obtain ⟨rfl, -⟩ := h
      simp
      omega
  · cases hg : getPtAttrs c "x" "y" <;> rw [hg] at h <;>
      simp only [Prod.mk.injEq] at h
    · exact absurd h.2 (by simp)
    · cases hg2 : getPtAttrs c "centerX" "centerY" <;> rw [hg2] at h <;>
        simp only [Prod.mk.injEq] at h
      · exact absurd h.2 (by simp)
      · cases hg3 : getAttr c "clockwise" <;> rw [hg3] at h <;>
          simp only [Prod.mk.injEq] at h
        · exact absurd h.2 (by simp)
        · obtain ⟨rfl, -⟩ := h
          simp
          omega
  · simp only [Prod.mk.injEq] at h
    obtain ⟨rfl, -⟩ := h
    simp
    omega

theorem sum_map_zero (cs : List Element) : (cs.map (fun _ => (0 : Nat))).sum = 0 := by
  simp

/-- One whole cutout node leaves the outer chain lists untouched. -/
theorem cutPhase_outer_counts (s : Contour) (cut : Element) (s' : Contour)
    (h : loadLoop Contour.cutoutStep s cut.children = (s', none)) :
    s'.points.length + s.connections.length =
      s'.connections.length + s.points.length + 0 := by
  have := loadLoop_counts Contour.cutoutStep (fun q => q.points.length)
    (fun q => q.connections.length) (fun _ => 0)
    Contour_cutoutStep_outer_counts cut.children s s' h
  simpa using this

/-- One whole cutout node adds its `PolyBegin` count more points than
connections to the shared cutout lists. -/
theorem cutPhase_cut_counts (s : Contour) (cut : Element) (s' : Contour)
    (h : loadLoop Contour.cutoutStep s cut.children = (s', none)) :
    s'.cutout_points.length + s.cutout_connections.length =
      s'.cutout_connections.length + s.cutout_points.length +
        countPolyBegin cut.children := by
  have := loadLoop_counts Contour.cutoutStep (fun q => q.cutout_points.length)
    (fun q => q.cutout_connections.length)
    (fun c => if c.tag == pfx "PolyBegin" then 1 else 0)
    Contour_cutoutStep_counts cut.children s s' h
  rw [countPolyBegin_eq_sum]
  exact this

/-- C1, counterexample: a Contour loaded from a perfectly well-formed
element — one outer chain and two cutouts, each cutout with exactly one
`PolyBegin` and one `PolyStepSegment` — succeeds, but because the source
flattens every cutout into the single shared `cutout_points` /
`cutout_connections` pair, the loaded cutout lists have 4 points and 2
connections: the claimed "connections-length == points-length − 1" fails
for the cutout chains (2 ≠ 4 − 1). -/
theorem claim_C1_counterexample :
    (Contour.load contourFresh
      (Element.mk (pfx "Contour") []
        [Element.mk (pfx "Polygon") []
          [Element.mk (pfx "PolyBegin") [("x", "0"), ("y", "0")] [],
           Element.mk (pfx "PolyStepSegment") [("x", "1"), ("y", "0")] []],
         Element.mk (pfx "Cutout") []
          [Element.mk (pfx "PolyBegin") [("x", "2"), ("y", "2")] [],
           Element.mk (pfx "PolyStepSegment") [("x", "3"), ("y", "2")] []],
         Element.mk (pfx "Cutout") []
          [Element.mk (pfx "PolyBegin") [("x", "4"), ("y", "4")] [],
           Element.mk (pfx "PolyStepSegment") [("x", "5"), ("y", "4")] []]])).2 = none ∧
    (Contour.load contourFresh
      (Element.mk (pfx "Contour") []
        [Element.mk (pfx "Polygon") []
          [Element.mk (pfx "PolyBegin") [("x", "0"), ("y", "0")] [],
           Element.mk (pfx "PolyStepSegment") [("x", "1"), ("y", "0")] []],
         Element.mk (pfx "Cutout") []
          [Element.mk (pfx "PolyBegin") [("x", "2"), ("y", "2")] [],
           Element.mk (pfx "PolyStepSegment") [("x", "3"), ("y", "2")] []],
         Element.mk (pfx "Cutout") []
          [Element.mk (pfx "PolyBegin") [("x", "4"), ("y", "4")] [],
           Element.mk (pfx "PolyStepSegment") [("x", "5"), ("y", "4")] []]])).1.cutout_points.length = 4 ∧
    (Contour.load contourFresh
      (Element.mk (pfx "Contour") []
        [Element.mk (pfx "Polygon") []
          [Element.mk (pfx "PolyBegin") [("x", "0"), ("y", "0")] [],
           Element.mk (pfx "PolyStepSegment") [("x", "1"), ("y", "0")] []],
         Element.mk (pfx "Cutout") []
          [Element.mk (pfx "PolyBegin") [("x", "2"), ("y", "2")] [],
           Element.mk (pfx "PolyStepSegment") [("x", "3"), ("y", "2")] []],
         Element.mk (pfx "Cutout") []
          [Element.mk (pfx "PolyBegin") [("x", "4"), ("y", "4")] [],
           Element.mk (pfx "PolyStepSegment") [("x", "5"), ("y", "4")] []]])).1.cutout_connections.length ≠ 4 - 1 := by
  refine ⟨by decide, by decide, by decide⟩

/-- C1, amended: for a successfully loaded Polygon, Polyline, or Contour
outer chain, connections-length + (number of `PolyBegin` children of the
chain) = points-length — so the claimed "points − 1" holds exactly when
the chain has exactly one `PolyBegin`.  A Contour's cutouts are flattened
into one shared pair of lists, for which connections-length + (total
`PolyBegin` count over all cutouts) = points-length — "points − 1" per
cutout chain is replaced by "points − k" for the k flattened chains. -/
theorem claim_C1_amended :
    (∀ e p, e.tag = pfx "Polygon" → Polygon.load polygonFresh e = (p, none) →
      p.connections.length + countPolyBegin e.children = p.points.length) ∧
    (∀ e p, e.tag = pfx "Polyline" → Polyline.load polylineFresh e = (p, none) →
      p.connections.length + countPolyBegin e.children = p.points.length) ∧
    (∀ e ct, e.tag = pfx "Contour" → Contour.load contourFresh e = (ct, none) →
      ct.connections.length + countPolyBegin (contourOuterChildren e) = ct.points.length ∧
      ct.cutout_connections.length + countCutoutPolyBegin e = ct.cutout_points.length) := by
  refine ⟨?_, ?_, ?_⟩
  · intro e p htag hload
    simp only [Polygon.load, htag, ne_eq, not_true_eq_false, if_false, ite_false] at hload
    have hc := loadLoop_counts Polygon.step (fun q => q.points.length)
      (fun q => q.connections.length) (fun c => if c.tag == pfx "PolyBegin" then 1 else 0)
      Polygon_step_counts e.children polygonFresh p hload
    dsimp only [polygonFresh, List.length_nil] at hc
    rw [countPolyBegin_eq_sum]
    omega
  · intro e p htag hload
    simp only [Polyline.load, htag, ne_eq, not_true_eq_false, if_false, ite_false] at hload
    have hc := loadLoop_counts Polyline.step (fun q => q.points.length)
      (fun q => q.connections.length) (fun c => if c.tag == pfx "PolyBegin" then 1 else 0)
      Polyline_step_counts e.children polylineFresh p hload
    dsimp only [polylineFresh, List.length_nil] at hc
    rw [countPolyBegin_eq_sum]
    omega
  · intro e ct htag hload
    simp only [Contour.load, htag, ne_eq, not_true_eq_false, if_false, ite_false] at hload
    cases hfc : findChild e (pfx "Polygon") with
    | none =>
      rw [hfc] at hload
      simp only at hload
      have houter := loadLoop_counts
        (fun ctst cutout => loadLoop Contour.cutoutStep ctst cutout.children)
        (fun q => q.points.length) (fun q => q.connections.length) (fun _ => 0)
        cutPhase_outer_counts (findAllChildren e (pfx "Cutout")) contourFresh ct hload
      have hcut := loadLoop_counts
        (fun ctst cutout => loadLoop Contour.cutoutStep ctst cutout.children)
        (fun q => q.cutout_points.length) (fun q => q.cutout_connections.length)
        (fun cutout => countPolyBegin cutout.children)
        cutPhase_cut_counts (findAllChildren e (pfx "Cutout")) contourFresh ct hload
      dsimp only [contourFresh, List.length_nil] at houter hcut
      rw [sum_map_zero] at houter
      constructor
      · have h0 : countPolyBegin (contourOuterChildren e) = 0 := by
          simp [contourOuterChildren, hfc, countPolyBegin]
        rw [h0]
        omega
      · simp only [countCutoutPolyBegin, contourCutouts]
        omega
    | some poly =>
      rw [hfc] at hload
      simp only at hload
      cases hout : loadLoop Contour.outerStep contourFresh poly.children with
      | mk s0 err =>
        rw [hout] at hload
        cases err with
        | some x => simp at hload
        | none =>
          simp only at hload
          have houter1 := loadLoop_counts Contour.outerStep
            (fun q => q.points.length) (fun q => q.connections.length)
            (fun c => if c.tag == pfx "PolyBegin" then 1 else 0)
            Contour_outerStep_counts poly.children contourFresh s0 hout
          have houter2 := loadLoop_counts Contour.outerStep
            (fun q => q.cutout_points.length) (fun q => q.cutout_connections.length)
            (fun _ => 0) Contour_outerStep_cut_counts poly.children contourFresh s0 hout
          have hphase1 := loadLoop_counts
            (fun ctst cutout => loadLoop Contour.cutoutStep ctst cutout.children)
            (fun q => q.points.length) (fun q => q.connections.length) (fun _ => 0)
            cutPhase_outer_counts (findAllChildren e (pfx "Cutout")) s0 ct hload
          have hphase2 := loadLoop_counts
            (fun ctst cutout => loadLoop Contour.cutoutStep ctst cutout.children)
            (fun q => q.cutout_points.length) (fun q => q.cutout_connections.length)
            (fun cutout => countPolyBegin cutout.children)
            cutPhase_cut_counts (findAllChildren e (pfx "Cutout")) s0 ct hload
          dsimp only [contourFresh, List.length_nil] at houter1 houter2
          dsimp only at hphase1 hphase2
          rw [sum_map_zero] at houter2 hphase1
          constructor
          · have h1 : countPolyBegin (contourOuterChildren e) = countPolyBegin poly.children := by
              simp [contourOuterChildren, hfc]
            rw [h1, countPolyBegin_eq_sum]
            omega
          · simp only [countCutoutPolyBegin, contourCutouts]
            omega

/-- C1, witness: the amended theorem applied to a concrete Polygon with
one `PolyBegin` and two segments (2 connections + 1 = 3 points), and to a
concrete Contour with one cutout of one `PolyBegin` and one segment. -/
theorem claim_C1_witness :
    ((Polygon.mk [((0 : Rat), (0 : Rat)), (1, 0), (2, 1)] [none, none]).connections.length +
      countPolyBegin
        [Element.mk (pfx "PolyBegin") [("x", "0"), ("y", "0")] [],
         Element.mk (pfx "PolyStepSegment") [("x", "1"), ("y", "0")] [],
         Element.mk (pfx "PolyStepSegment") [("x", "2"), ("y", "1")] []] =
      (Polygon.mk [((0 : Rat), (0 : Rat)), (1, 0), (2, 1)] [none, none]).points.length) ∧
    ((Contour.mk [((0 : Rat), (0 : Rat)), (1, 0)] [none] [(2, 2), (3, 2)] [none]
        "").cutout_connections.length +
      countCutoutPolyBegin
        (Element.mk (pfx "Contour") []
          [Element.mk (pfx "Polygon") []
            [Element.mk (pfx "PolyBegin") [("x", "0"), ("y", "0")] [],
             Element.mk (pfx "PolyStepSegment") [("x", "1"), ("y", "0")] []],
           Element.mk (pfx "Cutout") []
            [Element.mk (pfx "PolyBegin") [("x", "2"), ("y", "2")] [],
             Element.mk (pfx "PolyStepSegment") [("x", "3"), ("y", "2")] []]]) =
      (Contour.mk [((0 : Rat), (0 : Rat)), (1, 0)] [none] [(2, 2), (3, 2)] [none]
        "").cutout_points.length) := by
  constructor
  · exact claim_C1_amended.1
      (Element.mk (pfx "Polygon") []
        [Element.mk (pfx "PolyBegin") [("x", "0"), ("y", "0")] [],
         Element.mk (pfx "PolyStepSegment") [("x", "1"), ("y", "0")] [],
         Element.mk (pfx "PolyStepSegment") [("x", "2"), ("y", "1")] []])
      (Polygon.mk [((0 : Rat), (0 : Rat)), (1, 0), (2, 1)] [none, none])
      (by rfl) (by decide)
  · exact (claim_C1_amended.2.2
      (Element.mk (pfx "Contour") []
        [Element.mk (pfx "Polygon") []
          [Element.mk (pfx "PolyBegin") [("x", "0"), ("y", "0")] [],
           Element.mk (pfx "PolyStepSegment") [("x", "1"), ("y", "0")] []],
         Element.mk (pfx "Cutout") []
          [Element.mk (pfx "PolyBegin") [("x", "2"), ("y", "2")] [],
           Element.mk (pfx "PolyStepSegment") [("x", "3"), ("y", "2")] []]])
      (Contour.mk [((0 : Rat), (0 : Rat)), (1, 0)] [none] [(2, 2), (3, 2)] [none] "")
      (by rfl) (by decide)).2

/-! ## Claim C3 — geometry dispatch sites and the closed enumeration -/

/-- C3, counterexample: the `UserSpecial` dispatch site does not map all 8
shape variants — its `if/elif` chain has no `Polygon` branch, so a
`UserSpecial` element containing a well-formed `Polygon` child makes the
load raise "Unknown geometry type" instead of loading it. -/
theorem claim_C3_counterexample :
    UserSpecial.load userSpecialFresh
      (Element.mk (pfx "UserSpecial") []
        [Element.mk (pfx "Polygon") []
          [Element.mk (pfx "PolyBegin") [("x", "0"), ("y", "0")] []]]) =
      (⟨[]⟩, some ("Unknown geometry type with tag " ++ pfx "Polygon")) := by
  decide

/-- C3, amended: the `load_feature` dispatch site maps each of the 8 shape
variants to its loader (a successful variant load is appended as that
variant) and raises a fatal "Unknown geometry type" error for any tag
outside the enumeration (beyond its three special children
Location/Xform/UserPrimitiveRef); the `UserSpecial` dispatch site does the
same for only 7 variants — its enumeration omits `Polygon`, which
therefore falls into the same fatal-error branch as any foreign tag.
Neither site ever skips an element silently. -/
theorem claim_C3_amended :
    (∀ (ln : LayerNetS) (c : Element) sh, c.tag = pfx "Circle" →
      Circle.load circleFresh c = (sh, none) →
      featStep ln c =
        ({ ln with features := ln.features ++ [Feature.shape (Shape.circle sh)] }, none)) ∧
    (∀ (ln : LayerNetS) (c : Element) sh, c.tag = pfx "Line" →
      Line.load lineFresh c = (sh, none) →
      featStep ln c =
        ({ ln with features := ln.features ++ [Feature.shape (Shape.line sh)] }, none)) ∧
    (∀ (ln : LayerNetS) (c : Element) sh, c.tag = pfx "RectCenter" →
      RectCenter.load rectCenterFresh c = (sh, none) →
      featStep ln c =
        ({ ln with features := ln.features ++ [Feature.shape (Shape.rectCenter sh)] }, none)) ∧
    (∀ (ln : LayerNetS) (c : Element) sh, c.tag = pfx "Oval" →
      Oval.load ovalFresh c = (sh, none) →
      featStep ln c =
        ({ ln with features := ln.features ++ [Feature.shape (Shape.oval sh)] }, none)) ∧
    (∀ (ln : LayerNetS) (c : Element) sh, c.tag = pfx "Arc" →
      Arc.load arcFresh c = (sh, none) →
      featStep ln c =
        ({ ln with features := ln.features ++ [Feature.shape (Shape.arc sh)] }, none)) ∧
    (∀ (ln : LayerNetS) (c : Element) sh, c.tag = pfx "Contour" →
      Contour.load contourFresh c = (sh, none) →
      featStep ln c =
        ({ ln with features := ln.features ++ [Feature.shape (Shape.contour sh)] }, none)) ∧
    (∀ (ln : LayerNetS) (c : Element) sh, c.tag = pfx "Polygon" →
      Polygon.load polygonFresh c = (sh, none) →
      featStep ln c =
        ({ ln with features := ln.features ++ [Feature.shape (Shape.polygon sh)] }, none)) ∧
    (∀ (ln : LayerNetS) (c : Element) sh, c.tag = pfx "Polyline" →
      Polyline.load polylineFresh c = (sh, none) →
      featStep ln c =
        ({ ln with features := ln.features ++ [Feature.shape (Shape.polyline sh)] }, none)) ∧
    (∀ (ln : LayerNetS) (c : Element), c.tag ∉ geomTags8 → c.tag ∉ featExtraTags →
      featStep ln c = (ln, some ("Unknown geometry type with tag " ++ c.tag))) ∧
    (∀ (u : UserSpecial) (c : Element) sh, c.tag = pfx "Circle" →
      Circle.load circleFresh c = (sh, none) →
      UserSpecial.step u c = ({ u with shapes := u.shapes ++ [Shape.circle sh] }, none)) ∧
    (∀ (u : UserSpecial) (c : Element) sh, c.tag = pfx "Line" →
      Line.load lineFresh c = (sh, none) →
      UserSpecial.step u c = ({ u with shapes := u.shapes ++ [Shape.line sh] }, none)) ∧
    (∀ (u : UserSpecial) (c : Element) sh, c.tag = pfx "RectCenter" →
      RectCenter.load rectCenterFresh c = (sh, none) →
      UserSpecial.step u c = ({ u with shapes := u.shapes ++ [Shape.rectCenter sh] }, none)) ∧
    (∀ (u : UserSpecial) (c : Element) sh, c.tag = pfx "Oval" →
      Oval.load ovalFresh c = (sh, none) →
      UserSpecial.step u c = ({ u with shapes := u.shapes ++ [Shape.oval sh] }, none)) ∧
    (∀ (u : UserSpecial) (c : Element) sh, c.tag = pfx "Arc" →
      Arc.load arcFresh c = (sh, none) →
      UserSpecial.step u c = ({ u with shapes := u.shapes ++ [Shape.arc sh] }, none)) ∧
    (∀ (u : UserSpecial) (c : Element) sh, c.tag = pfx "Contour" →
      Contour.load contourFresh c = (sh, none) →
      UserSpecial.step u c = ({ u with shapes := u.shapes ++ [Shape.contour sh] }, none)) ∧
    (∀ (u : UserSpecial) (c : Element) sh, c.tag = pfx "Polyline" →
      Polyline.load polylineFresh c = (sh, none) →
      UserSpecial.step u c = ({ u with shapes := u.shapes ++ [Shape.polyline sh] }, none)) ∧
    (∀ (u : UserSpecial) (c : Element), c.tag ∉ userSpecialGeomTags →
      UserSpecial.step u c = (u, some ("Unknown geometry type with tag " ++ c.tag))) ∧
    (∀ (u : UserSpecial) (c : Element), c.tag = pfx "Polygon" →
      UserSpecial.step u c = (u, some ("Unknown geometry type with tag " ++ c.tag))) := by
  refine ⟨?_, ?_, ?_, ?_, ?_, ?_, ?_, ?_, ?_, ?_, ?_, ?_, ?_, ?_, ?_, ?_, ?_, ?_⟩
  · intro ln c sh htag hload
    simp only [featStep, htag]
    rw [hload]
    simp +decide
  · intro ln c sh htag hload
    simp only [featStep, htag]
    rw [hload]
    simp +decide
  · intro ln c sh htag hload
    simp only [featStep, htag]
    rw [hload]
    simp +decide
  · intro ln c sh htag hload
    simp only [featStep, htag]
    rw [hload]
    simp +decide
  · intro ln c sh htag hload
    simp only [featStep, htag]
    rw [hload]
    simp +decide
  · intro ln c sh htag hload
    simp only [featStep, htag]
    rw [hload]
    simp +decide
  · intro ln c sh htag hload
    simp only [featStep, htag]
    rw [hload]
    simp +decide
  · intro ln c sh htag hload
    simp only [featStep, htag]
    rw [hload]
    simp +decide
  · intro ln c hg he
    simp only [geomTags8, List.mem_cons, List.not_mem_nil, or_false, not_or] at hg
    simp only [featExtraTags, List.mem_cons, List.not_mem_nil, or_false, not_or] at he
    obtain ⟨hg1, hg2, hg3, hg4, hg5, hg6, hg7, hg8⟩ := hg
    obtain ⟨he1, he2, he3⟩ := he
    simp [featStep, hg1, hg2, hg3, hg4, hg5, hg6, hg7, hg8, he1, he2, he3]
  · intro u c sh htag hload
    simp only [UserSpecial.step, htag]
    rw [hload]
    simp +decide
  · intro u c sh htag hload
    simp only [UserSpecial.step, htag]
    rw [hload]
    simp +decide
  · intro u c sh htag hload
    simp only [UserSpecial.step, htag]
    rw [hload]
    simp +decide
  · intro u c sh htag hload
    simp only [UserSpecial.step, htag]
    rw [hload]
    simp +decide
  · intro u c sh htag hload
    simp only [UserSpecial.step, htag]
    rw [hload]
    simp +decide
  · intro u c sh htag hload
    simp only [UserSpecial.step, htag]
    rw [hload]
    simp +decide
  · intro u c sh htag hload
    simp only [UserSpecial.step, htag]
    rw [hload]
    simp +decide
  · intro u c hg
    simp only [userSpecialGeomTags, List.mem_cons, List.not_mem_nil, or_false, not_or] at hg
    obtain ⟨hg1, hg2, hg3, hg4, hg5, hg6, hg7⟩ := hg
    simp [UserSpecial.step, hg1, hg2, hg3, hg4, hg5, hg6, hg7]
  · intro u c htag
    simp +decide [UserSpecial.step, htag]

/-- C3, witness: the amended theorem applied to a concrete Circle feature
child (loaded and appended by `load_feature`'s dispatch), to a concrete
`Polygon` child of a `UserSpecial` (fatal error), and to a concrete
foreign tag at the `load_feature` site (fatal error). -/
theorem claim_C3_witness :
    featStep (layerNetFresh "N") (Element.mk (pfx "Circle") [("diameter", "4")] []) =
      ({ layerNetFresh "N" with
          features := (layerNetFresh "N").features ++
            [Feature.shape (Shape.circle ⟨some 4, "", none⟩)] }, none) ∧
    UserSpecial.step userSpecialFresh (Element.mk (pfx "Polygon") [] []) =
      (userSpecialFresh,
       some ("Unknown geometry type with tag " ++ (Element.mk (pfx "Polygon") [] []).tag)) ∧
    featStep (layerNetFresh "N") (Element.mk (pfx "Banana") [] []) =
      (layerNetFresh "N",
       some ("Unknown geometry type with tag " ++ (Element.mk (pfx "Banana") [] []).tag)) := by
  refine ⟨?_, ?_, ?_⟩
  · exact claim_C3_amended.1 (layerNetFresh "N")
      (Element.mk (pfx "Circle") [("diameter", "4")] []) ⟨some 4, "", none⟩
      (by rfl) (by decide)
  · exact claim_C3_amended.2.2.2.2.2.2.2.2.2.2.2.2.2.2.2.2.2 userSpecialFresh
      (Element.mk (pfx "Polygon") [] []) (by rfl)
  · exact (claim_C3_amended.2.2.2.2.2.2.2.2.1) (layerNetFresh "N")
      (Element.mk (pfx "Banana") [] []) (by decide) (by decide)

/-! ## Claims C4 / C8 — layer-net accumulation and no-net records

`load_feature` only ever appends to `features` / `feature_locations`, so
its effect on those two lists is independent of their prior contents.
The relational lemmas below make that precise. -/

theorem lookupA_append_singleton_ne {α : Type} (l : List (String × α)) {m n : String}
    (v : α) (h : m ≠ n) : lookupA (l ++ [(n, v)]) m = lookupA l m := by
  cases hl : lookupA l m with
  | some w => exact lookupA_append_left _ hl
  | none =>
    rw [lookupA_append_right _ hl]
    simp [lookupA, Ne.symm h]

theorem findChild_tag {e : Element} {t : String} {c : Element}
    (h : findChild e t = some c) : c.tag = t := by
  have := List.find?_some h
  simpa using this

/-- Every `featStep` outcome, independent of the incoming LayerNet: a
location append, an Xform replacement, a feature append, or an error that
leaves the state untouched. -/
theorem featStep_char (c : Element) :
    (∀ a, featStep a c =
      ({ a with feature_locations := a.feature_locations ++
          [(read_floatv c.attrib "x", read_floatv c.attrib "y")] }, none)) ∨
    (∀ a, featStep a c = ({ a with Xform := some (Xform.load xformFresh c).1 },
        (Xform.load xformFresh c).2)) ∨
    (∃ df : List Feature, ∀ a, featStep a c =
      ({ a with features := a.features ++ df }, none)) ∨
    (∃ e : String, ∀ a, featStep a c = (a, some e)) := by
  by_cases h1 : c.tag = pfx "Location"
  · exact Or.inl (fun a => by simp only [featStep, if_pos h1])
  by_cases h2 : c.tag = pfx "Xform"
  · refine Or.inr (Or.inl (fun a => ?_))
    simp only [featStep, if_neg h1, if_pos h2]
    try rcases Xform.load xformFresh c with ⟨x, e⟩
    try rfl
  by_cases h3 : c.tag = pfx "UserPrimitiveRef"
  · rcases hl : lookupA c.attrib "id" with - | i
    · exact Or.inr (Or.inr (Or.inr ⟨keyError "id", fun a => by
        simp only [featStep, if_neg h1, if_neg h2, if_pos h3, hl]⟩))
    · exact Or.inr (Or.inr (Or.inl ⟨[Feature.ref i], fun a => by
        simp only [featStep, if_neg h1, if_neg h2, if_pos h3, hl]⟩))
  by_cases h4 : c.tag = pfx "Circle"
  · rcases hload : Circle.load circleFresh c with ⟨sh, - | e⟩
    · exact Or.inr (Or.inr (Or.inl ⟨[Feature.shape (Shape.circle sh)], fun a => by
        simp only [featStep, if_neg h1, if_neg h2, if_neg h3, if_pos h4, hload]⟩))
    · exact Or.inr (Or.inr (Or.inr ⟨e, fun a => by
        simp only [featStep, if_neg h1, if_neg h2, if_neg h3, if_pos h4, hload]⟩))
  by_cases h5 : c.tag = pfx "Line"
  · rcases hload : Line.load lineFresh c with ⟨sh, - | e⟩
    · exact Or.inr (Or.inr (Or.inl ⟨[Feature.shape (Shape.line sh)], fun a => by
        simp only [featStep, if_neg h1, if_neg h2, if_neg h3, if_neg h4, if_pos h5, hload]⟩))
    · exact Or.inr (Or.inr (Or.inr ⟨e, fun a => by
        simp only [featStep, if_neg h1, if_neg h2, if_neg h3, if_neg h4, if_pos h5, hload]⟩))
  by_cases h6 : c.tag = pfx "RectCenter"
  · rcases hload : RectCenter.load rectCenterFresh c with ⟨sh, - | e⟩
    · exact Or.inr (Or.inr (Or.inl ⟨[Feature.shape (Shape.rectCenter sh)], fun a => by
        simp only [featStep, if_neg h1, if_neg h2, if_neg h3, if_neg h4, if_neg h5,
          if_pos h6, hload]⟩))
    · exact Or.inr (Or.inr (Or.inr ⟨e, fun a => by
        simp only [featStep, if_neg h1, if_neg h2, if_neg h3, if_neg h4, if_neg h5,
          if_pos h6, hload]⟩))
  by_cases h7 : c.tag = pfx "Oval"
  · rcases hload : Oval.load ovalFresh c with ⟨sh, - | e⟩
    · exact Or.inr (Or.inr (Or.inl ⟨[Feature.shape (Shape.oval sh)], fun a => by
        simp only [featStep, if_neg h1, if_neg h2, if_neg h3, if_neg h4, if_neg h5,
          if_neg h6, if_pos h7, hload]⟩))
    · exact Or.inr (Or.inr (Or.inr ⟨e, fun a => by
        simp only [featStep, if_neg h1, if_neg h2, if_neg h3, if_neg h4, if_neg h5,
          if_neg h6, if_pos h7, hload]⟩))
  by_cases h8 : c.tag = pfx "Arc"
  · rcases hload : Arc.load arcFresh c with ⟨sh, - | e⟩
    · exact Or.inr (Or.inr (Or.inl ⟨[Feature.shape (Shape.arc sh)], fun a => by
        simp only [featStep, if_neg h1, if_neg h2, if_neg h3, if_neg h4, if_neg h5,
          if_neg h6, if_neg h7, if_pos h8, hload]⟩))
    · exact Or.inr (Or.inr (Or.inr ⟨e, fun a => by
        simp only [featStep, if_neg h1, if_neg h2, if_neg h3, if_neg h4, if_neg h5,
          if_neg h6, if_neg h7, if_pos h8, hload]⟩))
  by_cases h9 : c.tag = pfx "Contour"
  · rcases hload : Contour.load contourFresh c with ⟨sh, - | e⟩
    · exact Or.inr (Or.inr (Or.inl ⟨[Feature.shape (Shape.contour sh)], fun a => by
        simp only [featStep, if_neg h1, if_neg h2, if_neg h3, if_neg h4, if_neg h5,
          if_neg h6, if_neg h7, if_neg h8, if_pos h9, hload]⟩))
    · exact Or.inr (Or.inr (Or.inr ⟨e, fun a => by
        simp only [featStep, if_neg h1, if_neg h2, if_neg h3, if_neg h4, if_neg h5,
          if_neg h6, if_neg h7, if_neg h8, if_pos h9, hload]⟩))
  by_cases h10 : c.tag = pfx "Polygon"
  · rcases hload : Polygon.load polygonFresh c with ⟨sh, - | e⟩
    · exact Or.inr (Or.inr (Or.inl ⟨[Feature.shape (Shape.polygon sh)], fun a => by
        simp only [featStep, if_neg h1, if_neg h2, if_neg h3, if_neg h4, if_neg h5,
          if_neg h6, if_neg h7, if_neg h8, if_neg h9, if_pos h10, hload]⟩))
    · exact Or.inr (Or.inr (Or.inr ⟨e, fun a => by
        simp only [featStep, if_neg h1, if_neg h2, if_neg h3, if_neg h4, if_neg h5,
          if_neg h6, if_neg h7, if_neg h8, if_neg h9, if_pos h10, hload]⟩))
  by_cases h11 : c.tag = pfx "Polyline"
  · rcases hload : Polyline.load polylineFresh c with ⟨sh, - | e⟩
    · exact Or.inr (Or.inr (Or.inl ⟨[Feature.shape (Shape.polyline sh)], fun a => by
        simp only [featStep, if_neg h1, if_neg h2, if_neg h3, if_neg h4, if_neg h5,
          if_neg h6, if_neg h7, if_neg h8, if_neg h9, if_neg h10, if_pos h11, hload]⟩))
    · exact Or.inr (Or.inr (Or.inr ⟨e, fun a => by
        simp only [featStep, if_neg h1, if_neg h2, if_neg h3, if_neg h4, if_neg h5,
          if_neg h6, if_neg h7, if_neg h8, if_neg h9, if_neg h10, if_pos h11, hload]⟩))
  · exact Or.inr (Or.inr (Or.inr ⟨"Unknown geometry type with tag " ++ c.tag, fun a => by
      simp only [featStep, if_neg h1, if_neg h2, if_neg h3, if_neg h4, if_neg h5,
        if_neg h6, if_neg h7, if_neg h8, if_neg h9, if_neg h10, if_neg h11]⟩))

theorem featStep_name (a : LayerNetS) (c : Element) : (featStep a c).1.name = a.name := by
  rcases featStep_char c with h | h | ⟨df, h⟩ | ⟨e, h⟩ <;> rw [h a]

theorem featLoop_name (cs : List Element) :
    ∀ a : LayerNetS, (loadLoop featStep a cs).1.name = a.name := by
  induction cs with
  | nil => intro a; rfl
  | cons c cs ih =>
    intro a
    unfold loadLoop
    cases hs : featStep a c with
    | mk a' e =>
      have hname : a'.name = a.name := by
        have := featStep_name a c
        rw [hs] at this
        exact this
      cases e with
      | none => simpa [hname] using ih a'
      | some x => simpa using hname

theorem featStep_rel (c : Element) (a b : LayerNetS) (F : List Feature)
    (L : List (Option Rat × Option Rat))
    (hf : a.features = F ++ b.features) (hl : a.feature_locations = L ++ b.feature_locations) :
    (featStep a c).2 = (featStep b c).2 ∧
    (featStep a c).1.features = F ++ (featStep b c).1.features ∧
    (featStep a c).1.feature_locations = L ++ (featStep b c).1.feature_locations := by
  rcases featStep_char c with h | h | ⟨df, h⟩ | ⟨e, h⟩ <;> rw [h a, h b]
  · exact ⟨rfl, by simp [hf], by simp [hl]⟩
  · exact ⟨rfl, by simp [hf], by simp [hl]⟩
  · exact ⟨rfl, by simp [hf], by simp [hl]⟩
  · exact ⟨rfl, by simp [hf], by simp [hl]⟩

theorem featLoop_rel (cs : List Element) :
    ∀ (a b : LayerNetS) (F : List Feature) (L : List (Option Rat × Option Rat)),
      a.features = F ++ b.features → a.feature_locations = L ++ b.feature_locations →
      (loadLoop featStep a cs).2 = (loadLoop featStep b cs).2 ∧
      (loadLoop featStep a cs).1.features = F ++ (loadLoop featStep b cs).1.features ∧
      (loadLoop featStep a cs).1.feature_locations =
        L ++ (loadLoop featStep b cs).1.feature_locations := by
  induction cs with
  | nil => intro a b F L hf hl; exact ⟨rfl, hf, hl⟩
  | cons c cs ih =>
    intro a b F L hf hl
    have hstep := featStep_rel c a b F L hf hl
    unfold loadLoop
    cases hsa : featStep a c with
    | mk a' ea =>
      cases hsb : featStep b c with
      | mk b' eb =>
        rw [hsa, hsb] at hstep
        obtain ⟨he, hf', hl'⟩ := hstep
        cases eb with
        | none =>
          cases he
          exact ih a' b' F L hf' hl'
        | some x =>
          cases he
          exact ⟨rfl, hf', hl'⟩

/-- `load_feature` appends: its effect on an arbitrary prior LayerNet is the
prior lists followed by exactly what it would produce on a fresh one, and
it succeeds or raises identically. -/
theorem load_feature_append (ln : LayerNetS) (fn : Element) (hfn : fn.tag = pfx "Features") :
    (ln.load_feature fn).2 = ((layerNetFresh "").load_feature fn).2 ∧
    (ln.load_feature fn).1.features =
      ln.features ++ ((layerNetFresh "").load_feature fn).1.features ∧
    (ln.load_feature fn).1.feature_locations =
      ln.feature_locations ++ ((layerNetFresh "").load_feature fn).1.feature_locations := by
  unfold LayerNetS.load_feature
  simp only [hfn, ne_eq, not_true_eq_false, if_false, ite_false]
  exact featLoop_rel fn.children ln (layerNetFresh "") ln.features ln.feature_locations
    (by simp [layerNetFresh]) (by simp [layerNetFresh])

theorem load_feature_name (ln : LayerNetS) (fn : Element) (hfn : fn.tag = pfx "Features") :
    (ln.load_feature fn).1.name = ln.name := by
  unfold LayerNetS.load_feature
  simp only [hfn, ne_eq, not_true_eq_false, if_false, ite_false]
  exact featLoop_name fn.children ln

/-- A no-net grouping touches only `nonet_geom`, appending its own record
exactly when it has a `Features` child. -/
theorem processSet_noNet (st st₁ : LayerFeatState) (s : Element)
    (hn : lookupA s.attrib "net" = none) (hps : processSet st s = (st₁, none)) :
    st₁.nets = st.nets ∧ st₁.vias = st.vias ∧ st₁.pads_not_used = st.pads_not_used ∧
    st₁.nonet_geom = st.nonet_geom ++
      (if (findChild s (pfx "Features")).isSome then [noNetContrib s] else []) := by
  unfold processSet at hps
  rw [hn] at hps
  dsimp only at hps
  cases hfc : findChild s (pfx "Features") with
  | none =>
    rw [hfc] at hps
    dsimp only at hps
    simp only [Prod.mk.injEq] at hps
    obtain ⟨h1, -⟩ := hps
    subst h1
    simp [hfc]
  | some fn =>
    rw [hfc] at hps
    dsimp only at hps
    rcases hld : (layerNetFresh "").load_feature fn with ⟨ln, err⟩
    rw [hld] at hps
    cases err with
    | some e => simp at hps
    | none =>
      simp only [Prod.mk.injEq] at hps
      obtain ⟨h1, -⟩ := hps
      subst h1
      refine ⟨rfl, rfl, rfl, ?_⟩
      simp [noNetContrib, hfc, hld]

/-- A pad/via grouping (net plus padUsage) never touches `nets` or
`nonet_geom`. -/
theorem processSet_pad (st st₁ : LayerFeatState) (s : Element) (n u : String)
    (hn : lookupA s.attrib "net" = some n) (hu : lookupA s.attrib "padUsage" = some u)
    (hps : processSet st s = (st₁, none)) :
    st₁.nets = st.nets ∧ st₁.nonet_geom = st.nonet_geom := by
  unfold processSet at hps
  rw [hn, hu] at hps
  dsimp only at hps
  by_cases hv : u = "VIA"
  · rw [if_pos hv] at hps
    rcases hld : NetVia.load netViaFresh s with ⟨via, err⟩
    rw [hld] at hps
    cases err with
    | some e => simp at hps
    | none =>
      simp only [Prod.mk.injEq] at hps
      obtain ⟨h1, -⟩ := hps
      subst h1
      exact ⟨rfl, rfl⟩
  · rw [if_neg hv] at hps
    by_cases ho : u = "NONE"
    · rw [if_pos ho] at hps
      rcases hld : NetVia.load netViaFresh s with ⟨pnu, err⟩
      rw [hld] at hps
      cases err with
      | some e => simp at hps
      | none =>
        simp only [Prod.mk.injEq] at hps
        obtain ⟨h1, -⟩ := hps
        subst h1
        exact ⟨rfl, rfl⟩
    · rw [if_neg ho] at hps
      simp only [Prod.mk.injEq] at hps
      obtain ⟨h1, -⟩ := hps
      subst h1
      exact ⟨rfl, rfl⟩

/-- A hole/slot-cavity grouping (net plus geometry) is skipped entirely. -/
theorem processSet_geomSkip (st st₁ : LayerFeatState) (s : Element) (n : String)
    (hn : lookupA s.attrib "net" = some n) (hpu : lookupA s.attrib "padUsage" = none)
    (hg : (lookupA s.attrib "geometry").isSome)
    (hps : processSet st s = (st₁, none)) : st₁ = st := by
  unfold processSet at hps
  rw [hn, hpu] at hps
  dsimp only at hps
  rw [if_pos hg] at hps
  simp only [Prod.mk.injEq] at hps
  exact hps.1.symm

/-- The net-geometry branch: get-or-create the named LayerNet, then append
the grouping's contribution to its parallel lists; every other part of
the state and every other net entry is untouched. -/
theorem processSet_netGeom (st st₁ : LayerFeatState) (s : Element) (n : String)
    (hn : lookupA s.attrib "net" = some n) (hpu : lookupA s.attrib "padUsage" = none)
    (hg : lookupA s.attrib "geometry" = none)
    (hps : processSet st s = (st₁, none)) :
    st₁.nonet_geom = st.nonet_geom ∧ st₁.vias = st.vias ∧
    st₁.pads_not_used = st.pads_not_used ∧
    (∀ m, m ≠ n → lookupA st₁.nets m = lookupA st.nets m) ∧
    (∀ ln₀, lookupA st.nets n = some ln₀ →
      st₁.nets.map Prod.fst = st.nets.map Prod.fst ∧
      ∃ ln₁, lookupA st₁.nets n = some ln₁ ∧ ln₁.name = ln₀.name ∧
        ln₁.features = ln₀.features ++ setFeats s ∧
        ln₁.feature_locations = ln₀.feature_locations ++ setLocs s) ∧
    (lookupA st.nets n = none →
      st₁.nets.map Prod.fst = st.nets.map Prod.fst ++ [n] ∧
      ∃ ln₁, lookupA st₁.nets n = some ln₁ ∧ ln₁.name = n ∧
        ln₁.features = setFeats s ∧ ln₁.feature_locations = setLocs s) := by
  unfold processSet at hps
  rw [hn, hpu] at hps
  dsimp only at hps
  rw [if_neg (by simp [hg])] at hps
  cases hprev : lookupA st.nets n with
  | some ln₀ =>
    rw [hprev] at hps
    dsimp only at hps
    rw [hprev] at hps
    dsimp only at hps
    cases hfc : findChild s (pfx "Features") with
    | none =>
      rw [hfc] at hps
      dsimp only at hps
      simp only [Prod.mk.injEq] at hps
      obtain ⟨h1, -⟩ := hps
      subst h1
      refine ⟨rfl, rfl, rfl, fun m hm => rfl, ?_, ?_⟩
      · intro ln₀' hln₀'
        cases hln₀'
        exact ⟨rfl, ln₀, hprev, rfl, by simp [setFeats, hfc], by simp [setLocs, hfc]⟩
      · intro hnone
        simp at hnone
    | some fn =>
      rw [hfc] at hps
      dsimp only at hps
      rcases hld : ln₀.load_feature fn with ⟨ln₂, err⟩
      rw [hld] at hps
      dsimp only at hps
      simp only [Prod.mk.injEq] at hps
      obtain ⟨h1, -⟩ := hps
      subst h1
      have hfntag : fn.tag = pfx "Features" := findChild_tag hfc
      have happ := load_feature_append ln₀ fn hfntag
      have hname := load_feature_name ln₀ fn hfntag
      rw [hld] at happ hname
      refine ⟨rfl, rfl, rfl, fun m hm => lookupA_updateA_ne ln₂ hm, ?_, ?_⟩
      · intro ln₀' hln₀'
        cases hln₀'
        refine ⟨updateA_map_fst _ _ _, ln₂,
          lookupA_updateA_self ln₂ (by rw [hprev]; rfl), hname, ?_, ?_⟩
        · rw [happ.2.1]
          simp [setFeats, hfc]
        · rw [happ.2.2]
          simp [setLocs, hfc]
      · intro hnone
        simp at hnone
  | none =>
    rw [hprev] at hps
    dsimp only at hps
    have hlook : lookupA (st.nets ++ [(n, layerNetFresh n)]) n = some (layerNetFresh n) := by
      rw [lookupA_append_right _ hprev]
      simp [lookupA]
    rw [hlook] at hps
    dsimp only at hps
    cases hfc : findChild s (pfx "Features") with
    | none =>
      rw [hfc] at hps
      dsimp only at hps
      simp only [Prod.mk.injEq] at hps
      obtain ⟨h1, -⟩ := hps
      subst h1
      refine ⟨rfl, rfl, rfl, fun m hm => lookupA_append_singleton_ne _ _ hm, ?_, ?_⟩
      · intro ln₀' hln₀'
        simp at hln₀'
      · intro _hn2
        exact ⟨by simp, layerNetFresh n, hlook, rfl,
          by simp [setFeats, hfc, layerNetFresh], by simp [setLocs, hfc, layerNetFresh]⟩
    | some fn =>
      rw [hfc] at hps
      dsimp only at hps
      rcases hld : (layerNetFresh n).load_feature fn with ⟨ln₂, err⟩
      rw [hld] at hps
      dsimp only at hps
      simp only [Prod.mk.injEq] at hps
      obtain ⟨h1, -⟩ := hps
      subst h1
      have hfntag : fn.tag = pfx "Features" := findChild_tag hfc
      have happ := load_feature_append (layerNetFresh n) fn hfntag
      have hname := load_feature_name (layerNetFresh n) fn hfntag
      rw [hld] at happ hname
      refine ⟨rfl, rfl, rfl, ?_, ?_, ?_⟩
      · intro m hm
        rw [lookupA_updateA_ne ln₂ hm]
        exact lookupA_append_singleton_ne _ _ hm
      · intro ln₀' hln₀'
        simp at hln₀'
      · intro _hn2
        refine ⟨?_, ln₂, lookupA_updateA_self ln₂ (by rw [hlook]; rfl), hname, ?_, ?_⟩
        · rw [updateA_map_fst]
          simp
        · rw [happ.2.1]
          simp [setFeats, hfc, layerNetFresh]
        · rw [happ.2.2]
          simp [setLocs, hfc, layerNetFresh]

/-- Groupings that are not net-geometry leave `nets` untouched, so the
spec relation just passes through them. -/
theorem NetsSpec_skip (s : Element) (sets : List Element) (st st₁ st' : LayerFeatState)
    (hnets : st₁.nets = st.nets) (hfalse : ∀ n, isNetGeomSet n s = false)
    (hspec : NetsSpec sets st₁ st') : NetsSpec (s :: sets) st st' := by
  obtain ⟨ih1, ih2, ih3⟩ := hspec
  have hfilter : ∀ n, (s :: sets).filter (isNetGeomSet n) = sets.filter (isNetGeomSet n) := by
    intro n
    simp [List.filter_cons, hfalse n]
  refine ⟨?_, ?_, ?_⟩
  · intro n ln hln
    obtain ⟨ln', h1, h2, h3, h4⟩ := ih1 n ln (by rw [hnets]; exact hln)
    refine ⟨ln', h1, h2, ?_, ?_⟩
    · rw [h3]
      simp [netContribF, hfilter n]
    · rw [h4]
      simp [netContribL, hfilter n]
  · intro n hn
    obtain ⟨hA, hB⟩ := ih2 n (by rw [hnets]; exact hn)
    constructor
    · intro hf
      rw [hfilter n] at hf
      exact hA hf
    · intro hf
      rw [hfilter n] at hf
      obtain ⟨ln', h1, h2, h3, h4⟩ := hB hf
      refine ⟨ln', h1, h2, ?_, ?_⟩
      · rw [h3]
        simp [netContribF, hfilter n]
      · rw [h4]
        simp [netContribL, hfilter n]
  · intro hd
    exact ih3 (by rw [hnets]; exact hd)

/-- Master accounting for a whole `Set` list: a successful run satisfies
`NetsSpec`. -/
theorem processSets_nets (sets : List Element) :
    ∀ st st' : LayerFeatState, loadLoop processSet st sets = (st', none) →
      NetsSpec sets st st' := by
  induction sets with
  | nil =>
    intro st st' h
    simp only [loadLoop, Prod.mk.injEq] at h
    obtain ⟨rfl, -⟩ := h
    refine ⟨?_, ?_, fun hd => hd⟩
    · intro n ln hln
      exact ⟨ln, hln, rfl, by simp [netContribF], by simp [netContribL]⟩
    · intro n hn
      exact ⟨fun _ => hn, fun hne => absurd rfl hne⟩
  | cons s sets ih =>
    intro st st' h
    unfold loadLoop at h
    cases hps : processSet st s with
    | mk st₁ err =>
      rw [hps] at h
      cases err with
      | some e => simp at h
      | none =>
        have hspec := ih st₁ st' h
        cases hnet : lookupA s.attrib "net" with
        | none =>
          obtain ⟨hnets, -, -, -⟩ := processSet_noNet st st₁ s hnet hps
          exact NetsSpec_skip s sets st st₁ st' hnets
            (fun n => by simp [isNetGeomSet, hnet]) hspec
        | some m =>
          cases hpu : lookupA s.attrib "padUsage" with
          | some u =>
            obtain ⟨hnets, -⟩ := processSet_pad st st₁ s m u hnet hpu hps
            exact NetsSpec_skip s sets st st₁ st' hnets
              (fun n => by simp [isNetGeomSet, hpu]) hspec
          | none =>
            cases hgeom : lookupA s.attrib "geometry" with
            | some g =>
              have hst : st₁ = st :=
                processSet_geomSkip st st₁ s m hnet hpu (by rw [hgeom]; rfl) hps
              exact NetsSpec_skip s sets st st₁ st' (by rw [hst])
                (fun n => by simp [isNetGeomSet, hgeom]) hspec
            | none =>
              obtain ⟨-, -, -, hne, hsome, hnone⟩ :=
                processSet_netGeom st st₁ s m hnet hpu hgeom hps
              obtain ⟨ih1, ih2, ih3⟩ := hspec
              have htrue : isNetGeomSet m s = true := by
                simp [isNetGeomSet, hnet, hpu, hgeom]
              have hconsF : netContribF m (s :: sets) = setFeats s ++ netContribF m sets := by
                simp [netContribF, List.filter_cons, htrue]
              have hconsL : netContribL m (s :: sets) = setLocs s ++ netContribL m sets := by
                simp [netContribL, List.filter_cons, htrue]
              have hfilterOther : ∀ n, n ≠ m →
                  (s :: sets).filter (isNetGeomSet n) = sets.filter (isNetGeomSet n) := by
                intro n hnm
                have : isNetGeomSet n s = false := by
                  simp [isNetGeomSet, hnet]
                  intro hcontra
                  exact absurd hcontra.symm hnm
                simp [List.filter_cons, this]
              refine ⟨?_, ?_, ?_⟩
              · intro n ln hln
                by_cases hnm : n = m
                · subst hnm
                  obtain ⟨hkeys, ln₁, hl1, hl2, hl3, hl4⟩ := hsome ln hln
                  obtain ⟨ln', g1, g2, g3, g4⟩ := ih1 n ln₁ hl1
                  refine ⟨ln', g1, by rw [g2, hl2], ?_, ?_⟩
                  · rw [g3, hl3, hconsF, List.append_assoc]
                  · rw [g4, hl4, hconsL, List.append_assoc]
                · obtain ⟨ln', g1, g2, g3, g4⟩ :=
                    ih1 n ln (by rw [hne n hnm]; exact hln)
                  refine ⟨ln', g1, g2, ?_, ?_⟩
                  · rw [g3]
                    simp [netContribF, hfilterOther n hnm]
                  · rw [g4]
                    simp [netContribL, hfilterOther n hnm]
              · intro n hn
                by_cases hnm : n = m
                · subst hnm
                  obtain ⟨hkeys, ln₁, hl1, hl2, hl3, hl4⟩ := hnone hn
                  obtain ⟨ln', g1, g2, g3, g4⟩ := ih1 n ln₁ hl1
                  constructor
                  · intro hf
                    simp [List.filter_cons, htrue] at hf
                  · intro _hf
                    refine ⟨ln', g1, by rw [g2, hl2], ?_, ?_⟩
                    · rw [g3, hl3, hconsF]
                    · rw [g4, hl4, hconsL]
                · obtain ⟨hA, hB⟩ := ih2 n (by rw [hne n hnm]; exact hn)
                  constructor
                  · intro hf
                    rw [hfilterOther n hnm] at hf
                    exact hA hf
                  · intro hf
                    rw [hfilterOther n hnm] at hf
                    obtain ⟨ln', g1, g2, g3, g4⟩ := hB hf
                    refine ⟨ln', g1, g2, ?_, ?_⟩
                    · rw [g3]
                      simp [netContribF, hfilterOther n hnm]
                    · rw [g4]
                      simp [netContribL, hfilterOther n hnm]
              · intro hd
                cases hm : lookupA st.nets m with
                | some ln₀ =>
                  obtain ⟨hkeys, -⟩ := hsome ln₀ hm
                  exact ih3 (by rw [hkeys]; exact hd)
                | none =>
                  obtain ⟨hkeys, -⟩ := hnone hm
                  refine ih3 ?_
                  rw [hkeys]
                  have hmem : m ∉ st.nets.map Prod.fst := (lookupA_eq_none_iff _ _).mp hm
                  rw [List.nodup_append]
                  exact ⟨hd, List.nodup_singleton m, by simp [hmem]⟩

/-- Master accounting for `nonet_geom`: one standalone record per no-net
grouping that has a `Features` child, in document order. -/
theorem processSets_nonet (sets : List Element) :
    ∀ st st' : LayerFeatState, loadLoop processSet st sets = (st', none) →
      st'.nonet_geom = st.nonet_geom ++ (sets.filter isNoNetFeatSet).map noNetContrib := by
  induction sets with
  | nil =>
    intro st st' h
    simp only [loadLoop, Prod.mk.injEq] at h
    obtain ⟨rfl, -⟩ := h
    simp
  | cons s sets ih =>
    intro st st' h
    unfold loadLoop at h
    cases hps : processSet st s with
    | mk st₁ err =>
      rw [hps] at h
      cases err with
      | some e => simp at h
      | none =>
        have hrest := ih st₁ st' h
        cases hnet : lookupA s.attrib "net" with
        | none =>
          obtain ⟨-, -, -, hng⟩ := processSet_noNet st st₁ s hnet hps
          rw [hrest, hng]
          cases hfc : findChild s (pfx "Features") with
          | none =>
            simp [List.filter_cons, isNoNetFeatSet, hnet, hfc]
          | some fn =>
            simp [List.filter_cons, isNoNetFeatSet, hnet, hfc, List.append_assoc]
        | some m =>
          have hhead : isNoNetFeatSet s = false := by
            simp [isNoNetFeatSet, hnet]
          have hng : st₁.nonet_geom = st.nonet_geom := by
            cases hpu : lookupA s.attrib "padUsage" with
            | some u => exact (processSet_pad st st₁ s m u hnet hpu hps).2
            | none =>
              cases hgeom : lookupA s.attrib "geometry" with
              | some g =>
                rw [processSet_geomSkip st st₁ s m hnet hpu (by rw [hgeom]; rfl) hps]
              | none => exact (processSet_netGeom st st₁ s m hnet hpu hgeom hps).1
          rw [hrest, hng]
          simp [List.filter_cons, hhead]

/-- C4: starting from the freshly initialized layer state, a successful
`parse_LayerFeature` run produces, for every net name carried by at least
one net-geometry grouping (in particular when two or more groupings share
that name), exactly one LayerNet under that name, whose features list and
feature-locations list are the document-order concatenation of all those
groupings' features and locations — append semantics, never replace. -/
theorem claim_C4_net_accumulation (lf : Element) (st' : LayerFeatState) (n : String)
    (h : parse_LayerFeature layerFeatInit (some lf) = (st', none))
    (hne : (findAllChildren lf (pfx "Set")).filter (isNetGeomSet n) ≠ []) :
    List.count n (st'.nets.map Prod.fst) = 1 ∧
    ∃ ln, lookupA st'.nets n = some ln ∧ ln.name = n ∧
      ln.features = netContribF n (findAllChildren lf (pfx "Set")) ∧
      ln.feature_locations = netContribL n (findAllChildren lf (pfx "Set")) := by
  have h' : loadLoop processSet layerFeatInit (findAllChildren lf (pfx "Set")) = (st', none) := by
    simpa [parse_LayerFeature] using h
  obtain ⟨-, spec2, spec3⟩ := processSets_nets _ layerFeatInit st' h'
  have hinit : lookupA layerFeatInit.nets n = none := rfl
  obtain ⟨-, hB⟩ := spec2 n hinit
  obtain ⟨ln, h1, h2, h3, h4⟩ := hB hne
  have hnodup : (st'.nets.map Prod.fst).Nodup := spec3 (by simp [layerFeatInit])
  have hmem : n ∈ st'.nets.map Prod.fst := by
    by_contra hmemn
    rw [← lookupA_eq_none_iff st'.nets n] at hmemn
    rw [hmemn] at h1
    cases h1
  exact ⟨List.count_eq_one_of_mem hnodup hmem, ln, h1, h2, h3, h4⟩

/-- C4, witness: two concrete groupings with `net="GND"` — one carrying a
circle of diameter 3 and a location (1,2), the other a circle of diameter
5 — yield a single "GND" LayerNet whose lists concatenate both groupings\'
contributions in document order. -/
theorem claim_C4_witness :
    List.count "GND"
      (((parse_LayerFeature layerFeatInit (some exLayerFeatureGnd)).1.nets.map Prod.fst)) = 1 ∧
    ∃ ln, lookupA (parse_LayerFeature layerFeatInit (some exLayerFeatureGnd)).1.nets "GND" =
        some ln ∧ ln.name = "GND" ∧
      ln.features = netContribF "GND" (findAllChildren exLayerFeatureGnd (pfx "Set")) ∧
      ln.feature_locations =
        netContribL "GND" (findAllChildren exLayerFeatureGnd (pfx "Set")) := by
  exact claim_C4_net_accumulation exLayerFeatureGnd
    (parse_LayerFeature layerFeatInit (some exLayerFeatureGnd)).1
    "GND" (by rfl)
    (by
      rw [show (findAllChildren exLayerFeatureGnd (pfx "Set")).filter (isNetGeomSet "GND") =
        exLayerFeatureGnd.children from rfl]
      rw [show exLayerFeatureGnd.children =
        (Element.mk (pfx "Set") [("net", "GND")]
          [Element.mk (pfx "Features") []
            [Element.mk (pfx "Circle") [("diameter", "3")] [],
             Element.mk (pfx "Location") [("x", "1"), ("y", "2")] []]]) ::
        [Element.mk (pfx "Set") [("net", "GND")]
          [Element.mk (pfx "Features") []
            [Element.mk (pfx "Circle") [("diameter", "5")] []]]] from rfl]
      exact List.cons_ne_nil _ _)

/-! ## Claim C8 — standalone no-net records -/

/-- C8, counterexample: a grouping with no `net` attribute and no
`Features` child produces no record at all — the layer state is returned
unchanged, with an empty `nonet_geom`, although the claim says every
no-net grouping becomes its own standalone record. -/
theorem claim_C8_counterexample :
    parse_LayerFeature layerFeatInit
      (some (Element.mk (pfx "LayerFeature") [("layerRef", "TOP")]
        [Element.mk (pfx "Set") [] []])) = (layerFeatInit, none) := by
  decide

/-- C8, amended: every no-net grouping that contains a `Features` child
becomes its own standalone no-net record — one record per such grouping,
in document order, never merged with any other record — and no-net
groupings never touch the named-net dictionary; a no-net grouping without
a `Features` child produces no record. -/
theorem claim_C8_nonet_records (lf : Element) (st' : LayerFeatState)
    (h : parse_LayerFeature layerFeatInit (some lf) = (st', none)) :
    st'.nonet_geom =
      ((findAllChildren lf (pfx "Set")).filter isNoNetFeatSet).map noNetContrib ∧
    (∀ (st : LayerFeatState) (s : Element) (st₁ : LayerFeatState),
      lookupA s.attrib "net" = none → processSet st s = (st₁, none) →
      st₁.nets = st.nets) := by
  constructor
  · have h' : loadLoop processSet layerFeatInit (findAllChildren lf (pfx "Set")) =
        (st', none) := by
      simpa [parse_LayerFeature] using h
    have hx := processSets_nonet _ layerFeatInit st' h'
    simpa [layerFeatInit] using hx
  · intro st s st₁ hn hps
    exact (processSet_noNet st st₁ s hn hps).1

/-- C8, witness: two concrete no-net groupings, each with a `Features`
child, become exactly the map of their own standalone records, in
document order. -/
theorem claim_C8_witness :
    (parse_LayerFeature layerFeatInit (some exLayerFeatureNoNet)).1.nonet_geom =
      ((findAllChildren exLayerFeatureNoNet (pfx "Set")).filter
        isNoNetFeatSet).map noNetContrib := by
  exact (claim_C8_nonet_records exLayerFeatureNoNet
    (parse_LayerFeature layerFeatInit (some exLayerFeatureNoNet)).1
    (by decide)).1

end IPC
